import Mathlib

/-!
Verification development for the conversation core of the
tg-transformator-bot repository: a shallow embedding of
`bot/utils.py`, `bot/handlers.py`, `bot/states.py` (and the parts of
`bot/keyboards.py` that influence state), together with theorems about
the session state machine and the answer-aggregation engine.

The question catalog (`bot/questions.py`) and the message constants
(`bot/messages.py`) are imported by the sources but are not themselves
among them.  Following the spec, the catalog is an explicit parameter
(`qs : List Question`) everywhere, the skill-level option list is a
parameter (`slOpts`), and the message constants are opaque fixed
strings whose content no property depends on.

Python dictionaries with string keys are embedded as association lists
with insert-or-overwrite semantics (Python dicts keep the position of
an existing key on assignment and append new keys); the per-user
`user_data` dictionary is embedded as a fixed-field record in which a
key that can be absent (`answers`, the two awaiting flags, the skill
level, the stored message reference) is an `Option`, and a key that is
only ever read with a falsy default (`question_index`, the boolean
flags, the chat history) is a plain value.  A Python exception escaping
a handler is modelled by the handler returning the conversation state
it was invoked in together with exactly the mutations that had already
been applied, which is what `python-telegram-bot` does: the error is
logged and the conversation state is left where it was.
-/

/-- Option of a question (`bot/questions.py`, also described in the spec's
data model): callback key, display text, and whether selecting it demands a
follow-up free-text capture. -/
structure QOption where
  key : String
  text : String
  requires_free_text : Bool
deriving DecidableEq

/-- Question of the catalog (`bot/questions.py` / spec data model).  The
Python attribute `section` is called `sectionTag` here because `section`
is a Lean keyword. -/
structure Question where
  id : String
  text : String
  sectionTag : String
  multi_select : Bool
  expects_text : Bool
  options : List QOption
deriving DecidableEq

/-- Answer value stored in `user_data["answers"]`.  The Python code stores
either a plain string (`record_single_answer`), a dict with `selected` and
`custom` lists (`toggle_multi_option` / `append_custom_answer`), or - as
`format_question_answer`'s `isinstance(answer, list)` branch anticipates -
a list of strings.  A `custom` entry is a pair of option label and value. -/
inductive Answer
| scalar (value : String)
| choice (selected : List String) (custom : List (String × String))
| strlist (items : List String)
deriving DecidableEq

/-- The `awaiting_other_question` context dict built in
`handle_question_callback` (`handlers.py`). -/
structure OtherCtx where
  question_id : String
  option_text : String
  sectionTag : String
  multi_select : Bool
deriving DecidableEq

/-- One entry of the `answers` list of the analysis payload
(`build_question_answer_pairs`, `utils.py`). -/
structure QAPair where
  id : String
  question : String
  answer : String
deriving DecidableEq

/-- The payload built by `_build_analysis_payload` (`handlers.py`). -/
structure AnalysisPayload where
  skill_level : String
  skill_level_key : Option String
  answers : List QAPair
  answers_by_id : List (String × String)
deriving DecidableEq

/-- The per-user `context.user_data` dictionary, as the fixed set of keys
the core reads and writes (`utils.py` key constants plus the `analysis`,
`analysis_payload` keys written by `handle_report_request`).  The
`answers_snapshot` key is written once in `handle_report_request` and
never read anywhere in the repository, so it is omitted. -/
structure UserData where
  answers : Option (List (String × Answer))
  question_index : Int
  awaiting_text : Option String
  awaiting_other : Option OtherCtx
  skill_level : Option String
  report_ready : Bool
  diagnosis_complete : Bool
  sheets_saved : Bool
  current_question_message : Option (Nat × Nat)
  chat_history : List (String × String)
  analysis : Option String
  analysis_payload : Option AnalysisPayload
deriving DecidableEq

/-- Python dict read: value of the first (unique) matching key. -/
def lookupA {α : Type} (m : List (String × α)) (k : String) : Option α :=
  match m with
  | [] => none
  | (k2, v) :: rest => if k2 = k then some v else lookupA rest k

/-- Python dict assignment `m[k] = v`: overwrite in place when the key is
present, append otherwise. -/
def setA {α : Type} (m : List (String × α)) (k : String) (v : α) :
    List (String × α) :=
  match m with
  | [] => [(k, v)]
  | (k2, v2) :: rest => if k2 = k then (k2, v) :: rest else (k2, v2) :: setA rest k v

/-- The session contents produced by `reset_user_session` (`utils.py`):
`user_data.clear()` followed by setting the listed keys. -/
def freshSession : UserData where
  answers := some []
  question_index := 0
  awaiting_text := none
  awaiting_other := none
  skill_level := none
  report_ready := false
  diagnosis_complete := false
  sheets_saved := false
  current_question_message := none
  chat_history := []
  analysis := none
  analysis_payload := none

/-- `reset_user_session` (`utils.py` lines 23-31). -/
def reset_user_session (_ud : UserData) : UserData := freshSession

/-- `ensure_user_data` (`utils.py` lines 34-37): reset when the answers key
is missing, otherwise return the session unchanged. -/
def ensure_user_data (ud : UserData) : UserData :=
  match ud.answers with
  | some _ => ud
  | none => reset_user_session ud

/-- `get_current_question` (`utils.py` lines 44-49). -/
def get_current_question (qs : List Question) (ud : UserData) : Option Question :=
  if 0 ≤ ud.question_index ∧ ud.question_index < (qs.length : Int) then
    qs[ud.question_index.toNat]?
  else none

/-- `advance_question` (`utils.py` lines 52-58); the Python function
mutates `user_data` and returns the question at the new index, so here it
returns the question together with the updated session. -/
def advance_question (qs : List Question) (ud : UserData) :
    Option Question × UserData :=
  let index := ud.question_index + 1
  let ud2 := { ud with question_index := index }
  (if 0 ≤ index ∧ index < (qs.length : Int) then qs[index.toNat]? else none, ud2)

/-- `get_answer` (`utils.py` lines 66-67) with the `None` default; callers
that pass another default apply it to the resulting `Option`. -/
def get_answer (ud : UserData) (question_id : String) : Option Answer :=
  lookupA (ud.answers.getD []) question_id

/-- `record_single_answer` (`utils.py` lines 97-99); `record_answer`
(lines 61-63) is the same function. -/
def record_single_answer (ud : UserData) (question_id : String) (value : Answer) :
    UserData :=
  { ud with answers := some (setA (ud.answers.getD []) question_id value) }

/-- `toggle_multi_option` (`utils.py` lines 70-82).  When the stored answer
for the question is not a dict, the Python `entry.setdefault` call raises
`AttributeError`; that outcome is `none` (the session is unchanged at that
point because `answers.setdefault` does not overwrite an existing key). -/
def toggle_multi_option (ud : UserData) (q : Question) (opt : QOption) :
    Option UserData :=
  let m := ud.answers.getD []
  match lookupA m q.id with
  | none =>
      some { ud with answers := some (setA m q.id (.choice [opt.key] [])) }
  | some (.choice sel cust) =>
      let sel2 := if opt.key ∈ sel then sel.erase opt.key else sel ++ [opt.key]
      some { ud with answers := some (setA m q.id (.choice sel2 cust)) }
  | some _ => none

/-- `get_selected_option_keys` (`utils.py` lines 85-87): the `selected`
list when the entry is a dict, `[]` otherwise (including a missing entry,
whose default `{}` has no `selected` key). -/
def get_selected_option_keys (ud : UserData) (question_id : String) : List String :=
  match get_answer ud question_id with
  | some (.choice sel _) => sel
  | _ => []

/-- `append_custom_answer` (`utils.py` lines 90-94); as with
`toggle_multi_option`, a stored non-dict answer makes the Python code raise,
modelled as `none`. -/
def append_custom_answer (ud : UserData) (question_id option_text value : String) :
    Option UserData :=
  let m := ud.answers.getD []
  match lookupA m question_id with
  | none =>
      let entry : Answer := .choice [] [(option_text, value)]
      some { ud with answers := some (setA m question_id entry) }
  | some (.choice sel cust) =>
      let entry : Answer := .choice sel (cust ++ [(option_text, value)])
      some { ud with answers := some (setA m question_id entry) }
  | some _ => none

/-- `set_current_question_message` (`utils.py` lines 102-103). -/
def set_current_question_message (ud : UserData) (chat_id message_id : Nat) :
    UserData :=
  { ud with current_question_message := some (chat_id, message_id) }

/-- `get_current_question_message` (`utils.py` lines 106-113); the
`isinstance` checks always succeed in the typed embedding. -/
def get_current_question_message (ud : UserData) : Option (Nat × Nat) :=
  ud.current_question_message

/-- `get_question_by_id` (`utils.py` lines 116-120): first catalog question
with the given id. -/
def get_question_by_id (qs : List Question) (question_id : String) :
    Option Question :=
  match qs with
  | [] => none
  | q :: rest =>
      if q.id = question_id then some q else get_question_by_id rest question_id

/-- `get_skill_level_text` (`utils.py` lines 123-128): the display text of
the first skill-level option whose key equals the stored skill level, or
the empty string. -/
def get_skill_level_text (slOpts : List (String × String)) (ud : UserData) :
    String :=
  match lookupA slOpts (ud.skill_level.getD "") with
  | some text => text
  | none => ""

/-- `find_option_by_key` over an option list (loop body of `utils.py`
lines 164-170). -/
def find_option_in (options : List QOption) (key : String) : Option QOption :=
  match options with
  | [] => none
  | opt :: rest => if opt.key = key then some opt else find_option_in rest key

/-- `find_option_by_key` (`utils.py` lines 164-170); the `if not
question.options` early return coincides with the empty-list case. -/
def find_option_by_key (q : Question) (key : String) : Option QOption :=
  find_option_in q.options key

/-- `format_question_answer` (`utils.py` lines 131-154): empty string for a
missing answer; for a dict answer the option texts of the resolvable
`selected` keys followed by a `label: value` line for each `custom` entry
with a non-empty value, joined with newlines; a list answer joined with
newlines; any other answer stringified. -/
def format_question_answer (q : Question) (ud : UserData) : String :=
  match get_answer ud q.id with
  | none => ""
  | some (.choice sel cust) =>
      let parts1 := sel.filterMap (fun key => (find_option_by_key q key).map (·.text))
      let parts2 := cust.filterMap (fun ce =>
        if ce.2 ≠ "" then some (ce.1 ++ ": " ++ ce.2) else none)
      String.intercalate "\n" (parts1 ++ parts2)
  | some (.strlist items) => String.intercalate "\n" items
  | some (.scalar v) => v

/-- `collect_all_answers` (`utils.py` lines 157-161): formatted answer per
catalog question, keyed by question id. -/
def collect_all_answers (qs : List Question) (ud : UserData) :
    List (String × String) :=
  qs.map (fun q => (q.id, format_question_answer q ud))

/-- Python whitespace for `str.strip` and the `\s` character class (the
six ASCII whitespace characters). -/
def isPySpace (c : Char) : Bool :=
  c == ' ' || c == '\t' || c == '\n' || c == '\r' ||
    c == Char.ofNat 11 || c == Char.ofNat 12

/-- Python `str.strip()`: remove leading and trailing whitespace. -/
def pyStrip (s : String) : String :=
  ⟨((s.data.dropWhile (isPySpace ·)).reverse.dropWhile (isPySpace ·)).reverse⟩

/-- The multiline substitution `re.sub(r"^>\s*", "", text)` of
`strip_markdown` as a character scan: `atStart` records whether the scan
position is at the start of a line, `skipping` that the scan is inside the
whitespace run of a current match. -/
def quotePass : List Char → Bool → Bool → List Char
  | [], _, _ => []
  | c :: rest, atStart, skipping =>
      if skipping && isPySpace c then quotePass rest (c == '\n') true
      else if atStart && c == '>' then quotePass rest false true
      else c :: quotePass rest (c == '\n') false

/-- The substitution `re.sub(r"\s+", " ", text)` of `strip_markdown`:
collapse every whitespace run to a single space (`inWs` records that the
previous character belonged to a run already collapsed). -/
def collapseWs : List Char → Bool → List Char
  | [], _ => []
  | c :: rest, inWs =>
      if isPySpace c then
        if inWs then collapseWs rest true else ' ' :: collapseWs rest true
      else c :: collapseWs rest false

/-- `strip_markdown` (`utils.py` lines 186-193): drop leading `>` quoting
with its following whitespace at line starts, drop every `*`, backtick and
underscore character (replacing `**` and then `*` by the empty string
removes every `*`), collapse whitespace runs, and strip the ends. -/
def strip_markdown (text : String) : String :=
  let noQuote := quotePass text.data true false
  let noMarks := noQuote.filter (fun c =>
    !(c == '*' || c == Char.ofNat 96 || c == '_'))
  pyStrip ⟨collapseWs noMarks false⟩

/-- `build_question_answer_pairs` (`utils.py` lines 173-183). -/
def build_question_answer_pairs (qs : List Question) (ud : UserData) :
    List QAPair :=
  qs.map (fun q => ⟨q.id, strip_markdown q.text, format_question_answer q ud⟩)

/-- `append_chat_history` (`utils.py` lines 196-200): append, then evict
from the front down to `limit` entries. -/
def append_chat_history (ud : UserData) (role message : String) (limit : Nat) :
    UserData :=
  let history := ud.chat_history ++ [(role, message)]
  let history2 :=
    if limit < history.length then history.drop (history.length - limit)
    else history
  { ud with chat_history := history2 }

/-- `get_chat_history` (`utils.py` lines 203-207); the stored value is
always a list in the typed embedding. -/
def get_chat_history (ud : UserData) : List (String × String) :=
  ud.chat_history

/-- Conversation states (`bot/states.py`). -/
inductive ConversationState
| WELCOME
| SKILL_LEVEL
| VIDEO
| DIAGNOSIS
| READINESS
| REPORT
| CHAT
deriving DecidableEq

/-- Observable requests a handler makes of the transport and of the
external collaborators.  `sendDocument` records a *successful* report
delivery (the Python code sends the PDF inside a `try` whose failure
aborts the handler); `invokePersist` / `invokeAnalyze` / `invokePdf` /
`invokeChatReply` record that the corresponding collaborator was
invoked. -/
inductive Effect
| sendMessage (chat_id : Nat) (text : String)
| editMessage (chat_id message_id : Nat) (text : String)
| sendDocument (chat_id : Nat)
| invokePersist
| invokeAnalyze
| invokePdf
| invokeChatReply
deriving DecidableEq

/-- Modelled from the spec: `bot/messages.py` is not among the sources.
The message constants are opaque non-empty strings; no claim depends on
their content. -/
def WELCOME_TEXT : String := "WELCOME_TEXT"

/-- Modelled from the spec: see `WELCOME_TEXT`. -/
def SKILL_LEVEL_PROMPT : String := "SKILL_LEVEL_PROMPT"

/-- Modelled from the spec: see `WELCOME_TEXT`. -/
def VIDEO_MESSAGE : String := "VIDEO_MESSAGE"

/-- Modelled from the spec: see `WELCOME_TEXT`. -/
def EXPERT_SKIP_MESSAGE : String := "EXPERT_SKIP_MESSAGE"

/-- Modelled from the spec: see `WELCOME_TEXT`. -/
def DIAGNOSIS_INTRO : String := "DIAGNOSIS_INTRO"

/-- Modelled from the spec: see `WELCOME_TEXT`. -/
def CUSTOM_OPTION_PROMPT : String := "CUSTOM_OPTION_PROMPT"

/-- Modelled from the spec: see `WELCOME_TEXT`. -/
def PRE_CHAT_REMINDER : String := "PRE_CHAT_REMINDER"

/-- Modelled from the spec: see `WELCOME_TEXT`. -/
def PRE_REPORT_MESSAGE : String := "PRE_REPORT_MESSAGE"

/-- Modelled from the spec: see `WELCOME_TEXT`. -/
def CHAT_FALLBACK_MESSAGE : String := "CHAT_FALLBACK_MESSAGE"

/-- Result of one handler invocation: the conversation state it returns,
the mutated session, and the observable effects in order. -/
structure HRes where
  st : ConversationState
  ud : UserData
  effs : List Effect
deriving DecidableEq

/-- `_state_for_question` (`handlers.py` lines 273-278). -/
def state_for_question (q : Question) : ConversationState :=
  if q.sectionTag = "business" then .DIAGNOSIS else .READINESS

/-- `_format_question_text` (`handlers.py` lines 220-241): the question
template plus, when a dict answer has renderable selections or non-empty
custom entries, an appended selected-so-far block. -/
def format_question_text (q : Question) (ud : UserData) : String :=
  match get_answer ud q.id with
  | some (.choice sel cust) =>
      let lines1 := sel.filterMap (fun key =>
        (find_option_by_key q key).map (fun o => "- " ++ o.text))
      let lines2 := cust.filterMap (fun ce =>
        if ce.2 ≠ "" then some ("- " ++ ce.1 ++ ": " ++ ce.2) else none)
      let selected_lines := lines1 ++ lines2
      if selected_lines ≠ [] then
        q.text ++ "\n\n*Выбрано:*\n" ++ String.intercalate "\n" selected_lines
      else q.text
  | _ => q.text

/-- `start_command` (`handlers.py` lines 111-123): ensure, full reset,
welcome message, `WELCOME` state. -/
def start_command (chat_id : Nat) (ud : UserData) : HRes :=
  let ud1 := ensure_user_data ud
  let ud2 := reset_user_session ud1
  ⟨.WELCOME, ud2, [.sendMessage chat_id WELCOME_TEXT]⟩

/-- `handle_start_button` (`handlers.py` lines 126-137). -/
def handle_start_button (chat_id : Nat) (ud : UserData) : HRes :=
  ⟨.SKILL_LEVEL, ensure_user_data ud, [.sendMessage chat_id SKILL_LEVEL_PROMPT]⟩

/-- `handle_skill_selection` (`handlers.py` lines 140-161): store the
choice; the first two skill-level options lead to the video message, any
other to the expert skip message; both branches return `VIDEO`. -/
def handle_skill_selection (slOpts : List (String × String)) (chat_id : Nat)
    (choice : String) (ud : UserData) : HRes :=
  let ud2 := { ud with skill_level := some choice }
  let firstTwo := (slOpts.take 2).map (·.1)
  if choice ∈ firstTwo then
    ⟨.VIDEO, ud2, [.sendMessage chat_id VIDEO_MESSAGE]⟩
  else
    ⟨.VIDEO, ud2, [.sendMessage chat_id EXPERT_SKIP_MESSAGE]⟩

/-- `handle_questionnaire_complete` (`handlers.py` lines 469-481). -/
def handle_questionnaire_complete (chat_id : Nat) (ud : UserData) : HRes :=
  ⟨.REPORT, { ud with diagnosis_complete := true },
    [.sendMessage chat_id PRE_REPORT_MESSAGE]⟩

/-- `_send_question` (`handlers.py` lines 195-217): clear both awaiting
flags, set `awaiting_text` for a text-only question, send the card (with
message id `msg_id` assigned by the transport) and remember it. -/
def send_question (chat_id msg_id : Nat) (q : Question) (ud : UserData) : HRes :=
  let ud1 := ensure_user_data ud
  let ud2 := { ud1 with awaiting_text := none, awaiting_other := none }
  let ud3 :=
    if q.options ≠ [] then ud2
    else if q.expects_text then { ud2 with awaiting_text := some q.id }
    else ud2
  let text := format_question_text q ud3
  let ud4 := set_current_question_message ud3 chat_id msg_id
  ⟨state_for_question q, ud4, [.sendMessage chat_id text]⟩

/-- `send_next_question` (`handlers.py` lines 180-192): current question
when `is_new`, otherwise advance; completion when exhausted. -/
def send_next_question (qs : List Question) (chat_id fresh : Nat)
    (is_new : Bool) (ud : UserData) : HRes :=
  let ud1 := ensure_user_data ud
  let qud :=
    if is_new then (get_current_question qs ud1, ud1) else advance_question qs ud1
  match qud with
  | (none, ud2) => handle_questionnaire_complete chat_id ud2
  | (some q, ud2) => send_question chat_id fresh q ud2

/-- `start_diagnosis_flow` (`handlers.py` lines 171-177): intro message
then the first question (`is_new = true`). -/
def start_diagnosis_flow (qs : List Question) (chat_id fresh : Nat)
    (ud : UserData) : HRes :=
  let r := send_next_question qs chat_id (fresh + 1) true ud
  ⟨r.st, r.ud, .sendMessage chat_id DIAGNOSIS_INTRO :: r.effs⟩

/-- `_handle_multi_done` (`handlers.py` lines 337-341): advance without
touching the answers. -/
def handle_multi_done (qs : List Question) (chat_id fresh : Nat)
    (_q : Question) (ud : UserData) : HRes :=
  send_next_question qs chat_id fresh false ud

/-- `_refresh_question_message` (`handlers.py` lines 244-270): edit the
stored card in place with the re-rendered text, and re-store the
reference; no-op when no reference is stored. -/
def refresh_question_message (q : Question) (ud : UserData) :
    UserData × List Effect :=
  match get_current_question_message ud with
  | none => (ud, [])
  | some (c, m) =>
      let new_text := format_question_text q ud
      (set_current_question_message ud c m, [.editMessage c m new_text])

/-- Python `data.split("|")` for the one-character separator, written as
a structural recursion so that it evaluates inside the kernel: splitting
the empty string yields `[""]`, and each separator occurrence starts a
new piece. -/
def splitChar (sep : Char) : List Char → List String
  | [] => [""]
  | c :: rest =>
      let r := splitChar sep rest
      if c = sep then "" :: r
      else
        match r with
        | [] => [String.mk [c]]
        | h :: t => String.mk (c :: h.data) :: t

/-- Python `data.split("|")` on a string. -/
def pySplit (sep : Char) (s : String) : List String := splitChar sep s.data

/-- Structural string matching for the dispatch patterns (`^q\|`,
`^skill_level_`, commands starting with `/`). -/
def listStarts : List Char → List Char → Bool
  | [], _ => true
  | _ :: _, [] => false
  | p :: ps, c :: cs => p == c && listStarts ps cs

/-- Whether `s` begins with `pre` (the anchored regex patterns of the
handler registrations). -/
def strStarts (pre s : String) : Bool := listStarts pre.data s.data

/-- `handle_question_callback` (`handlers.py` lines 281-334).  `msg_id` is
the id of the message bearing the pressed button, `cur` the conversation
state the event was dispatched in (returned unchanged when the handler
raises), `fresh` the id the transport will assign to a newly sent card. -/
def handle_question_callback (qs : List Question) (chat_id msg_id fresh : Nat)
    (data : String) (cur : ConversationState) (ud : UserData) : HRes :=
  match pySplit '|' data with
  | [_, question_id, payload] =>
      (match get_question_by_id qs question_id with
       | none => ⟨.DIAGNOSIS, ud, []⟩
       | some q =>
          if payload = "done" then handle_multi_done qs chat_id fresh q ud
          else
            match find_option_by_key q payload with
            | none => ⟨state_for_question q, ud, []⟩
            | some opt =>
                if opt.requires_free_text then
                  let ctx : OtherCtx := ⟨q.id, opt.text, q.sectionTag, q.multi_select⟩
                  let prompt :=
                    if CUSTOM_OPTION_PROMPT ≠ "" then CUSTOM_OPTION_PROMPT
                    else "Пожалуйста, напиши свой вариант."
                  ⟨state_for_question q, { ud with awaiting_other := some ctx },
                    [.sendMessage chat_id prompt]⟩
                else if q.multi_select then
                  let ud1 := ensure_user_data ud
                  match toggle_multi_option ud1 q opt with
                  | none => ⟨cur, ud1, []⟩
                  | some ud2 =>
                      let new_text := format_question_text q ud2
                      let ud3 := set_current_question_message ud2 chat_id msg_id
                      ⟨state_for_question q, ud3, [.editMessage chat_id msg_id new_text]⟩
                else
                  let ud1 := record_single_answer ud q.id (.scalar opt.text)
                  send_next_question qs chat_id fresh false ud1)
  | _ => ⟨.DIAGNOSIS, ud, []⟩

/-- One entry of the payload built by `_build_chat_payload`
(`handlers.py` lines 449-461). -/
structure ChatPayload where
  analysis : Option String
  answers : List QAPair
  answers_by_id : List (String × String)
  skill_level : String
  history : List (String × String)
  user_message : String
deriving DecidableEq

/-- `_build_chat_payload` (`handlers.py` lines 449-461): cached analysis
payload parts when present and non-empty (Python `or`), rebuilt
otherwise. -/
def build_chat_payload (qs : List Question) (slOpts : List (String × String))
    (ud : UserData) (user_message : String) : ChatPayload :=
  let cachedAnswers := (ud.analysis_payload.map (·.answers)).getD []
  let cachedById := (ud.analysis_payload.map (·.answers_by_id)).getD []
  { analysis := ud.analysis
    answers :=
      if cachedAnswers ≠ [] then cachedAnswers
      else build_question_answer_pairs qs ud
    answers_by_id :=
      if cachedById ≠ [] then cachedById else collect_all_answers qs ud
    skill_level := get_skill_level_text slOpts ud
    history := get_chat_history ud
    user_message := user_message }

/-- `handle_chat_message` (`handlers.py` lines 530-552).  `reply` is the
chat-reply collaborator's result (the empty string standing for a falsy
reply). -/
def handle_chat_message (qs : List Question) (slOpts : List (String × String))
    (chat_id : Nat) (reply : String) (raw_text : String) (ud0 : UserData) : HRes :=
  let ud := ensure_user_data ud0
  if !ud.report_ready then
    ⟨.REPORT, ud, [.sendMessage chat_id PRE_CHAT_REMINDER]⟩
  else
    let user_message := pyStrip raw_text
    if user_message = "" then
      ⟨.CHAT, ud, [.sendMessage chat_id CHAT_FALLBACK_MESSAGE]⟩
    else
      let ud1 := append_chat_history ud "user" user_message 12
      let _payload := build_chat_payload qs slOpts ud1 user_message
      if reply ≠ "" then
        ⟨.CHAT, append_chat_history ud1 "assistant" reply 12,
          [.invokeChatReply, .sendMessage chat_id reply]⟩
      else
        ⟨.CHAT, ud1, [.invokeChatReply, .sendMessage chat_id CHAT_FALLBACK_MESSAGE]⟩

/-- `handle_text_response` (`handlers.py` lines 342-378).  `cur` is the
conversation state the event was dispatched in (kept when the handler
raises), `reply` the chat-reply collaborator's result for the
report-ready fall-through. -/
def handle_text_response (qs : List Question) (slOpts : List (String × String))
    (chat_id fresh : Nat) (reply : String) (cur : ConversationState)
    (raw_text : String) (ud0 : UserData) : HRes :=
  let ud := ensure_user_data ud0
  let text := pyStrip raw_text
  let fallthrough : HRes :=
    if ud.report_ready then handle_chat_message qs slOpts chat_id reply raw_text ud
    else ⟨.DIAGNOSIS, ud, [.sendMessage chat_id PRE_CHAT_REMINDER]⟩
  match ud.awaiting_other with
  | some other_ctx =>
      (match get_question_by_id qs other_ctx.question_id with
       | none =>
          ⟨.DIAGNOSIS, { ud with awaiting_other := none },
            [.sendMessage chat_id PRE_CHAT_REMINDER]⟩
       | some q =>
          if q.multi_select then
            match append_custom_answer ud other_ctx.question_id
                other_ctx.option_text text with
            | none => ⟨cur, ud, []⟩
            | some ud1 =>
                let ud2 := { ud1 with awaiting_other := none }
                let r := refresh_question_message q ud2
                ⟨state_for_question q, r.1, r.2⟩
          else
            let ud1 := record_single_answer ud other_ctx.question_id (.scalar text)
            let ud2 := { ud1 with awaiting_other := none }
            send_next_question qs chat_id fresh false ud2)
  | none =>
      match ud.awaiting_text with
      | some awaiting_qid =>
          if awaiting_qid ≠ "" then
            match get_question_by_id qs awaiting_qid with
            | some q =>
                let ud1 := record_single_answer ud q.id (.scalar text)
                let ud2 := { ud1 with awaiting_text := none }
                send_next_question qs chat_id fresh false ud2
            | none => fallthrough
          else fallthrough
      | none => fallthrough

/-- `_build_analysis_payload` (`handlers.py` lines 411-417). -/
def build_analysis_payload (qs : List Question)
    (slOpts : List (String × String)) (ud : UserData) : AnalysisPayload :=
  { skill_level := get_skill_level_text slOpts ud
    skill_level_key := ud.skill_level
    answers := build_question_answer_pairs qs ud
    answers_by_id := collect_all_answers qs ud }

/-- Outcomes of the awaited collaborator calls of one event: whether each
call returns (`true`) or raises (`false`), the analysis result, and the
chat reply. -/
structure Oracles where
  persistOk : Bool
  analyzeOk : Bool
  pdfOk : Bool
  sendOk : Bool
  analysisResult : String
  reply : String
deriving DecidableEq

/-- Phase of `handle_report_request` after the persistence gate
(`handlers.py` lines 500-527): analysis on a snapshot, PDF rendering,
delivery, then the report flags and caches. -/
def report_after_persist (qs : List Question) (slOpts : List (String × String))
    (chat_id : Nat) (oc : Oracles) (cur : ConversationState) (ud : UserData) :
    HRes :=
  let analysis_payload := build_analysis_payload qs slOpts ud
  if !oc.analyzeOk then ⟨cur, ud, [.invokeAnalyze]⟩
  else if !oc.pdfOk then ⟨cur, ud, [.invokeAnalyze, .invokePdf]⟩
  else if !oc.sendOk then ⟨cur, ud, [.invokeAnalyze, .invokePdf]⟩
  else
    ⟨.REPORT,
      { ud with report_ready := true, analysis := some oc.analysisResult,
                analysis_payload := some analysis_payload },
      [.invokeAnalyze, .invokePdf, .sendDocument chat_id]⟩

/-- `handle_report_request` (`handlers.py` lines 484-527): reminder when
the diagnosis is not complete; otherwise persist once (gated by
`sheets_saved`, the flag set only when the call returns), then analyse,
render and deliver; any raising collaborator call aborts the handler with
the mutations made so far. -/
def handle_report_request (qs : List Question) (slOpts : List (String × String))
    (chat_id : Nat) (oc : Oracles) (cur : ConversationState) (ud0 : UserData) :
    HRes :=
  let ud := ensure_user_data ud0
  if !ud.diagnosis_complete then
    ⟨.REPORT, ud, [.sendMessage chat_id PRE_CHAT_REMINDER]⟩
  else if !ud.sheets_saved then
    if !oc.persistOk then ⟨cur, ud, [.invokePersist]⟩
    else
      let r := report_after_persist qs slOpts chat_id oc cur
        { ud with sheets_saved := true }
      ⟨r.st, r.ud, .invokePersist :: r.effs⟩
  else report_after_persist qs slOpts chat_id oc cur ud

/-- Inbound events of the transport: the `/start` command, a button
callback (with the id of the message bearing the button and the
collaborator outcomes), and a plain text message. -/
inductive Event
| start
| callback (data : String) (msg_id : Nat) (oc : Oracles)
| text (message : String) (oc : Oracles)
deriving DecidableEq

/-- System state threaded through a run: conversation state, session, and
the next message id the transport will assign. -/
structure SysState where
  st : ConversationState
  ud : UserData
  fresh : Nat
deriving DecidableEq

/-- Number of messages a handler sent (its cards get the next transport
ids). -/
def countSends (effs : List Effect) : Nat :=
  (effs.filter (fun e =>
    match e with
    | .sendMessage _ _ => true
    | _ => false)).length

/-- Event dispatch of the `ConversationHandler` in `build_application`
(`handlers.py` lines 63-108): `/start` is entry point and fallback in
every state; each state routes exactly the listed patterns; anything else
is not handled and changes nothing. -/
def stepE (qs : List Question) (slOpts : List (String × String))
    (chat_id : Nat) (s : SysState) (ev : Event) : SysState × List Effect :=
  let noop : HRes := ⟨s.st, s.ud, []⟩
  let r : HRes :=
    match ev with
    | .start => start_command chat_id s.ud
    | .callback data msg_id oc =>
        (match s.st with
         | .WELCOME =>
            if data = "start_intro" then handle_start_button chat_id s.ud else noop
         | .SKILL_LEVEL =>
            if strStarts "skill_level_" data then
              handle_skill_selection slOpts chat_id data s.ud
            else noop
         | .VIDEO =>
            if data = "video_ready" ∨ data = "start_diagnosis" then
              start_diagnosis_flow qs chat_id s.fresh s.ud
            else noop
         | .DIAGNOSIS =>
            if strStarts "q|" data then
              handle_question_callback qs chat_id msg_id s.fresh data s.st s.ud
            else noop
         | .READINESS =>
            if strStarts "q|" data then
              handle_question_callback qs chat_id msg_id s.fresh data s.st s.ud
            else noop
         | .REPORT =>
            if data = "generate_report" then
              handle_report_request qs slOpts chat_id oc s.st s.ud
            else noop
         | .CHAT => noop)
    | .text message oc =>
        if strStarts "/" message then noop
        else
          match s.st with
          | .DIAGNOSIS =>
              handle_text_response qs slOpts chat_id s.fresh oc.reply s.st message s.ud
          | .READINESS =>
              handle_text_response qs slOpts chat_id s.fresh oc.reply s.st message s.ud
          | .CHAT => handle_chat_message qs slOpts chat_id oc.reply message s.ud
          | _ => noop
  (⟨r.st, r.ud, s.fresh + countSends r.effs⟩, r.effs)

/-- One transition, effects discarded. -/
def step (qs : List Question) (slOpts : List (String × String))
    (chat_id : Nat) (s : SysState) (ev : Event) : SysState :=
  (stepE qs slOpts chat_id s ev).1

/-- The state right after the conversation's entry `/start`: `WELCOME`
with a freshly reset session. -/
def initState : SysState := ⟨.WELCOME, freshSession, 1⟩

/-- Run a list of events from a state. -/
def runSteps (qs : List Question) (slOpts : List (String × String))
    (chat_id : Nat) (s : SysState) (evs : List Event) : SysState :=
  evs.foldl (step qs slOpts chat_id) s

/-- Run a list of events from the initial state. -/
def run (qs : List Question) (slOpts : List (String × String))
    (chat_id : Nat) (evs : List Event) : SysState :=
  runSteps qs slOpts chat_id initState evs

/-- A state of the conversation system is reachable when some event list
leads to it from the initial state. -/
def Reachable (qs : List Question) (slOpts : List (String × String))
    (chat_id : Nat) (s : SysState) : Prop :=
  ∃ evs : List Event, run qs slOpts chat_id evs = s

/-! Helper lemmas about the dictionary embedding. -/

theorem lookupA_setA_self {α : Type} (m : List (String × α)) (k : String) (v : α) :
    lookupA (setA m k v) k = some v := by
  induction m with
  | nil => simp [setA, lookupA]
  | cons hd tl ih =>
      obtain ⟨k2, v2⟩ := hd
      by_cases h : k2 = k
      · simp [setA, lookupA, h]
      · simp [setA, lookupA, h, ih]

theorem ensure_user_data_of_isSome {ud : UserData} (h : ud.answers.isSome) :
    ensure_user_data ud = ud := by
  unfold ensure_user_data
  cases hx : ud.answers with
  | some m => rfl
  | none => rw [hx] at h; simp at h

/-- C9: resetting then ensuring is idempotent, and `ensure_user_data`
returns an initialized session unchanged, performing a full reset exactly
when the answers map is missing. -/
theorem c9_reset_then_ensure_idempotent :
    (∀ ud : UserData,
      ensure_user_data (reset_user_session
          (ensure_user_data (reset_user_session ud))) =
        ensure_user_data (reset_user_session ud)) ∧
    (∀ ud : UserData, ud.answers.isSome → ensure_user_data ud = ud) ∧
    (∀ ud : UserData, ud.answers = none →
      ensure_user_data ud = reset_user_session ud) := by
  refine ⟨fun ud => rfl, fun ud h => ensure_user_data_of_isSome h, fun ud h => ?_⟩
  unfold ensure_user_data
  rw [h]

/-- C9 witness: the idempotence and both `ensure_user_data` cases at
concrete sessions. -/
theorem c9_reset_then_ensure_idempotent_witness :
    ensure_user_data freshSession = freshSession ∧
    ensure_user_data { freshSession with answers := none } =
      reset_user_session { freshSession with answers := none } :=
  ⟨c9_reset_then_ensure_idempotent.2.1 freshSession (by decide),
   c9_reset_then_ensure_idempotent.2.2 { freshSession with answers := none } rfl⟩

/-! Claim C3: double toggle. -/

/-- Session for the C3 counterexample: question `m1` already has options
`a` and `b` selected, in that order. -/
def c3Session : UserData :=
  { freshSession with answers := some [("m1", .choice ["a", "b"] [])] }

/-- The multi-select question of the C3 counterexample. -/
def c3Question : Question :=
  ⟨"m1", "M1", "business", true, false, [⟨"a", "A", false⟩, ⟨"b", "B", false⟩]⟩

/-- The toggled option of the C3 counterexample. -/
def c3OptionA : QOption := ⟨"a", "A", false⟩

/-- Session after the first toggle of the C3 counterexample. -/
def c3SessionMid : UserData :=
  { freshSession with answers := some [("m1", .choice ["b"] [])] }

/-- Session after the second toggle of the C3 counterexample. -/
def c3SessionEnd : UserData :=
  { freshSession with answers := some [("m1", .choice ["b", "a"] [])] }

/-- C3 counterexample: toggling option `a` twice on the selected list
`["a", "b"]` yields `["b", "a"]` - the elements are restored but not their
order, because deselection removes the key in place and reselection
appends it at the end. -/
theorem c3_counterexample :
    toggle_multi_option c3Session c3Question c3OptionA = some c3SessionMid ∧
    toggle_multi_option c3SessionMid c3Question c3OptionA = some c3SessionEnd ∧
    get_selected_option_keys c3Session "m1" = ["a", "b"] ∧
    get_selected_option_keys c3SessionEnd "m1" = ["b", "a"] ∧
    get_selected_option_keys c3SessionEnd "m1" ≠
      get_selected_option_keys c3Session "m1" := by
  decide

/-- C3 amended: for a session whose stored entry for the question is a
choice entry with duplicate-free selected keys, toggling the same option
twice restores the prior selected list up to permutation; it restores the
list exactly when the option was not previously selected, and otherwise
moves the option to the end of the list. -/
theorem c3_amended_double_toggle (ud : UserData) (q : Question) (opt : QOption)
    (sel : List String) (cust : List (String × String))
    (hsel : get_answer ud q.id = some (.choice sel cust)) (hnd : sel.Nodup) :
    ∃ ud1 ud2,
      toggle_multi_option ud q opt = some ud1 ∧
      toggle_multi_option ud1 q opt = some ud2 ∧
      get_selected_option_keys ud2 q.id =
        (if opt.key ∈ sel then sel.erase opt.key ++ [opt.key] else sel) ∧
      (get_selected_option_keys ud2 q.id).Perm sel ∧
      (opt.key ∉ sel → get_selected_option_keys ud2 q.id = sel) := by
  have hm : lookupA (ud.answers.getD []) q.id = some (.choice sel cust) := hsel
  by_cases hmem : opt.key ∈ sel
  · have hne : opt.key ∉ sel.erase opt.key := hnd.not_mem_erase
    refine ⟨{ ud with answers := some (setA (ud.answers.getD []) q.id
        (.choice (sel.erase opt.key) cust)) },
      { ud with answers := some (setA (setA (ud.answers.getD []) q.id
          (.choice (sel.erase opt.key) cust)) q.id
          (.choice (sel.erase opt.key ++ [opt.key]) cust)) },
      ?_, ?_, ?_, ?_, ?_⟩
    · simp [toggle_multi_option, hm, hmem]
    · simp [toggle_multi_option, lookupA_setA_self, hne]
    · simp [get_selected_option_keys, get_answer, lookupA_setA_self, hmem]
    · simp only [get_selected_option_keys, get_answer, Option.getD_some,
        lookupA_setA_self]
      exact (List.perm_append_singleton _ _).trans (List.perm_cons_erase hmem).symm
    · intro h; exact absurd hmem h
  · have hmem2 : opt.key ∈ sel ++ [opt.key] := by simp
    have herase : (sel ++ [opt.key]).erase opt.key = sel := by
      rw [List.erase_append_right _ hmem]
      simp [List.erase_cons_head]
    refine ⟨{ ud with answers := some (setA (ud.answers.getD []) q.id
        (.choice (sel ++ [opt.key]) cust)) },
      { ud with answers := some (setA (setA (ud.answers.getD []) q.id
          (.choice (sel ++ [opt.key]) cust)) q.id (.choice sel cust)) },
      ?_, ?_, ?_, ?_, ?_⟩
    · simp [toggle_multi_option, hm, hmem]
    · simp [toggle_multi_option, lookupA_setA_self, hmem2, herase]
    · simp [get_selected_option_keys, get_answer, lookupA_setA_self, hmem]
    · simp [get_selected_option_keys, get_answer, lookupA_setA_self]
    · intro _
      simp [get_selected_option_keys, get_answer, lookupA_setA_self]

/-- C3 amended witness: the double toggle at the counterexample's concrete
input, with both hypotheses discharged by evaluation. -/
theorem c3_amended_double_toggle_witness :
    ∃ ud1 ud2,
      toggle_multi_option c3Session c3Question c3OptionA = some ud1 ∧
      toggle_multi_option ud1 c3Question c3OptionA = some ud2 ∧
      get_selected_option_keys ud2 c3Question.id =
        (if c3OptionA.key ∈ ["a", "b"] then
          (["a", "b"] : List String).erase c3OptionA.key ++ [c3OptionA.key]
        else ["a", "b"]) ∧
      (get_selected_option_keys ud2 c3Question.id).Perm ["a", "b"] ∧
      (c3OptionA.key ∉ (["a", "b"] : List String) →
        get_selected_option_keys ud2 c3Question.id = ["a", "b"]) :=
  c3_amended_double_toggle c3Session c3Question c3OptionA ["a", "b"] []
    (by decide) (by decide)

/-! Claim C8: the answer-rendering projection. -/

/-- The rendering rule exactly as claim C8 words it: resolve each selected
key to its option text (skipping keys with no matching option) and append
a `label: value` line for each custom entry - with no condition on the
value. -/
def format_answer_claimed (q : Question) (ud : UserData) : String :=
  match get_answer ud q.id with
  | none => ""
  | some (.choice sel cust) =>
      String.intercalate "\n"
        (sel.filterMap (fun key => (find_option_by_key q key).map (·.text)) ++
          cust.map (fun ce => ce.1 ++ ": " ++ ce.2))
  | some (.strlist items) => String.intercalate "\n" items
  | some (.scalar v) => v

/-- Question of the C8 counterexample. -/
def c8Question : Question :=
  ⟨"c8", "C8 text", "business", true, false, [⟨"x", "X", false⟩]⟩

/-- Session of the C8 counterexample: one custom entry whose value is the
empty string. -/
def c8Session : UserData :=
  { freshSession with answers := some [("c8", .choice [] [("Label", "")])] }

/-- C8 counterexample: the source skips custom entries with an empty
value (`if value:`), so a choice answer holding the custom entry
`("Label", "")` renders as the empty string, not as the `"Label: "` line
the claim prescribes for *each* custom entry. -/
theorem c8_counterexample :
    format_question_answer c8Question c8Session = "" ∧
    format_answer_claimed c8Question c8Session = "Label: " ∧
    format_question_answer c8Question c8Session ≠
      format_answer_claimed c8Question c8Session := by
  decide

/-- Resolution of selected keys to option texts, written as the amended
claim reads: each key is looked up, keys with no matching option are
skipped. -/
def resolved_option_texts (q : Question) : List String → List String
  | [] => []
  | k :: ks =>
      match find_option_by_key q k with
      | some o => o.text :: resolved_option_texts q ks
      | none => resolved_option_texts q ks

/-- Custom-entry lines as the amended claim reads: one `label: value` line
per entry with a non-empty value, entries with an empty value skipped. -/
def custom_lines : List (String × String) → List String
  | [] => []
  | (label, value) :: rest =>
      if value = "" then custom_lines rest
      else (label ++ ": " ++ value) :: custom_lines rest

/-- The rendering rule as amended: empty string when no answer is
recorded; for a choice answer the resolved option texts followed by the
non-empty custom lines, joined with newlines; a list answer joined with
newlines; a scalar stringified directly. -/
def format_answer_amended (q : Question) (ud : UserData) : String :=
  match get_answer ud q.id with
  | none => ""
  | some (.scalar v) => v
  | some (.strlist items) => String.intercalate "\n" items
  | some (.choice sel cust) =>
      String.intercalate "\n" (resolved_option_texts q sel ++ custom_lines cust)

theorem resolved_option_texts_eq_filterMap (q : Question) (sel : List String) :
    sel.filterMap (fun key => (find_option_by_key q key).map (·.text)) =
      resolved_option_texts q sel := by
  induction sel with
  | nil => rfl
  | cons k ks ih =>
      cases h : find_option_by_key q k with
      | some o => simp [resolved_option_texts, List.filterMap_cons, h, ih]
      | none => simp [resolved_option_texts, List.filterMap_cons, h, ih]

theorem custom_lines_eq_filterMap (cust : List (String × String)) :
    cust.filterMap (fun ce =>
        if ce.2 ≠ "" then some (ce.1 ++ ": " ++ ce.2) else none) =
      custom_lines cust := by
  induction cust with
  | nil => rfl
  | cons ce rest ih =>
      obtain ⟨label, value⟩ := ce
      by_cases h : value = ""
      · simpa [custom_lines, List.filterMap_cons, h] using ih
      · simpa [custom_lines, List.filterMap_cons, h] using ih

/-- C8 amended: `format_question_answer` renders the empty string when no
answer is recorded, resolves selected keys to option texts (skipping keys
with no matching option) and appends a `label: value` line for each
custom entry *with a non-empty value*, and stringifies a scalar or list
answer directly. -/
theorem c8_amended_format_characterization (q : Question) (ud : UserData) :
    format_question_answer q ud = format_answer_amended q ud := by
  unfold format_question_answer format_answer_amended
  cases get_answer ud q.id with
  | none => rfl
  | some a =>
      cases a with
      | scalar v => rfl
      | strlist items => rfl
      | choice sel cust =>
          simp only [resolved_option_texts_eq_filterMap, custom_lines_eq_filterMap]

/-! Claim C7: purity of the answer projections. -/

/-- C7: `format_question_answer` and `build_analysis_payload` are
functions of the session's answer map and skill level alone (and of the
fixed catalog and skill-option parameters): two sessions agreeing on
those keys produce identical output, so re-invoking either on an
unchanged session yields identical results and no hidden state is
consulted; being Lean functions of the session value, they mutate
nothing. -/
theorem c7_payload_and_format_pure (qs : List Question)
    (slOpts : List (String × String)) (ud1 ud2 : UserData)
    (hans : ud1.answers = ud2.answers)
    (hskill : ud1.skill_level = ud2.skill_level) :
    build_analysis_payload qs slOpts ud1 = build_analysis_payload qs slOpts ud2 ∧
    (∀ q : Question, format_question_answer q ud1 = format_question_answer q ud2) := by
  have hget : ∀ x, get_answer ud1 x = get_answer ud2 x := by
    intro x; unfold get_answer; rw [hans]
  have hfmt : ∀ q : Question,
      format_question_answer q ud1 = format_question_answer q ud2 := by
    intro q; unfold format_question_answer; rw [hget]
  refine ⟨?_, hfmt⟩
  unfold build_analysis_payload get_skill_level_text build_question_answer_pairs
    collect_all_answers
  rw [hskill]
  simp [hfmt]

/-- C7 witness: the purity instance at a concrete session (both
hypotheses discharged by reflexivity). -/
theorem c7_payload_and_format_pure_witness :
    build_analysis_payload [] [] freshSession =
      build_analysis_payload [] [] freshSession ∧
    (∀ q : Question,
      format_question_answer q freshSession = format_question_answer q freshSession) :=
  c7_payload_and_format_pure [] [] freshSession freshSession rfl rfl

/-! Claim C10: the multi-select done signal. -/

theorem ensure_answers_isSome (ud : UserData) :
    (ensure_user_data ud).answers.isSome := by
  unfold ensure_user_data
  cases h : ud.answers with
  | some m => simp [h]
  | none => simp [reset_user_session, freshSession]

theorem send_question_index_answers (chat_id msg_id : Nat) (q : Question)
    (ud : UserData) (h : ud.answers.isSome) :
    (send_question chat_id msg_id q ud).ud.question_index = ud.question_index ∧
    (send_question chat_id msg_id q ud).ud.answers = ud.answers := by
  unfold send_question
  rw [ensure_user_data_of_isSome h]
  by_cases h1 : q.options ≠ [] <;> cases h2 : q.expects_text <;>
    simp [h1, h2, set_current_question_message]

theorem send_next_question_advance (qs : List Question) (chat_id fresh : Nat)
    (ud : UserData) :
    (send_next_question qs chat_id fresh false ud).ud.question_index =
      (ensure_user_data ud).question_index + 1 ∧
    (send_next_question qs chat_id fresh false ud).ud.answers =
      (ensure_user_data ud).answers := by
  have hu : (ensure_user_data ud).answers.isSome := ensure_answers_isSome ud
  unfold send_next_question advance_question handle_questionnaire_complete
  simp only [Bool.false_eq_true, if_false]
  cases hx : (if 0 ≤ (ensure_user_data ud).question_index + 1 ∧
      (ensure_user_data ud).question_index + 1 < (qs.length : Int)
    then qs[((ensure_user_data ud).question_index + 1).toNat]? else none) with
  | none => simp [hx]
  | some q =>
      have h2 : ({ ensure_user_data ud with
          question_index := (ensure_user_data ud).question_index + 1 } :
            UserData).answers.isSome := hu
      simp only [hx]
      have := send_question_index_answers chat_id fresh q
        { ensure_user_data ud with
          question_index := (ensure_user_data ud).question_index + 1 } h2
      simpa using this

/-- Collaborator outcomes in which every call succeeds. -/
def okOracle : Oracles := ⟨true, true, true, true, "ANALYSIS", "REPLY"⟩

/-- A three-entry skill-level option list standing for the catalog's
`SKILL_LEVEL_OPTIONS`. -/
def stdSl : List (String × String) :=
  [("skill_level_beginner", "Beginner"), ("skill_level_middle", "Middle"),
   ("skill_level_expert", "Expert")]

/-- A catalog holding a single multi-select question. -/
def multiOnlyQ : Question := ⟨"m", "M", "business", true, false, [⟨"x", "X", false⟩]⟩

/-- Events reaching the single multi-select question and pressing its
done button without toggling anything. -/
def c10Events : List Event :=
  [.callback "start_intro" 100 okOracle,
   .callback "skill_level_beginner" 101 okOracle,
   .callback "video_ready" 102 okOracle,
   .callback ("q|m|done") 103 okOracle]

/-- C10: a `done` callback for any catalog question advances the cursor
by exactly one and creates no answer entry, whatever the session holds -
no toggle or custom entry is required; consequently the questionnaire of
a single multi-select catalog is completed (state `REPORT`,
`diagnosis_complete` set) with an empty answers map. -/
theorem c10_done_advances_unconditionally (qs : List Question)
    (chat_id msg_id fresh : Nat) (cur : ConversationState) (ud : UserData)
    (data tag qid : String) (q : Question)
    (hsplit : pySplit '|' data = [tag, qid, "done"])
    (hq : get_question_by_id qs qid = some q) :
    ((handle_question_callback qs chat_id msg_id fresh data cur ud).ud.question_index
        = (ensure_user_data ud).question_index + 1 ∧
      (handle_question_callback qs chat_id msg_id fresh data cur ud).ud.answers
        = (ensure_user_data ud).answers) ∧
    ((run [multiOnlyQ] stdSl 7 c10Events).st = .REPORT ∧
      (run [multiOnlyQ] stdSl 7 c10Events).ud.answers = some [] ∧
      (run [multiOnlyQ] stdSl 7 c10Events).ud.diagnosis_complete = true) := by
  constructor
  · unfold handle_question_callback
    rw [hsplit]
    simp only [hq, reduceIte, handle_multi_done]
    exact send_next_question_advance qs chat_id fresh ud
  · exact ⟨by decide, by decide, by decide⟩

/-- C10 witness: the theorem applied to the concrete one-question catalog
and pressed done button, with both hypotheses discharged by evaluation. -/
theorem c10_done_advances_unconditionally_witness :
    ((handle_question_callback [multiOnlyQ] 7 103 4 "q|m|done" .DIAGNOSIS
          freshSession).ud.question_index
        = (ensure_user_data freshSession).question_index + 1 ∧
      (handle_question_callback [multiOnlyQ] 7 103 4 "q|m|done" .DIAGNOSIS
          freshSession).ud.answers
        = (ensure_user_data freshSession).answers) ∧
    ((run [multiOnlyQ] stdSl 7 c10Events).st = .REPORT ∧
      (run [multiOnlyQ] stdSl 7 c10Events).ud.answers = some [] ∧
      (run [multiOnlyQ] stdSl 7 c10Events).ud.diagnosis_complete = true) :=
  c10_done_advances_unconditionally [multiOnlyQ] 7 103 4 .DIAGNOSIS freshSession
    "q|m|done" "q" "m" multiOnlyQ (by decide) (by decide)

/-! Claim C1: routing misses. -/

/-- A catalog question whose section is not `business`, so its state label
is `READINESS`. -/
def readinessQ : Question := ⟨"r1", "R1", "readiness", false, false, [⟨"a", "A", false⟩]⟩

/-- Events reaching the `READINESS` question state. -/
def c1Prefix : List Event :=
  [.callback "start_intro" 100 okOracle,
   .callback "skill_level_beginner" 101 okOracle,
   .callback "video_ready" 102 okOracle]

/-- The prefix extended by a malformed question callback (two parts). -/
def c1Events : List Event := c1Prefix ++ [.callback "q|x" 103 okOracle]

/-- C1 counterexample: from the reachable `READINESS` state, a malformed
question callback leaves the session untouched but the handler returns
`DIAGNOSIS`, so the conversation does not remain in the state it was in
before the event. -/
theorem c1_counterexample :
    (run [readinessQ] stdSl 7 c1Prefix).st = .READINESS ∧
    (run [readinessQ] stdSl 7 c1Events).ud = (run [readinessQ] stdSl 7 c1Prefix).ud ∧
    (run [readinessQ] stdSl 7 c1Events).st = .DIAGNOSIS ∧
    (run [readinessQ] stdSl 7 c1Events).st ≠ (run [readinessQ] stdSl 7 c1Prefix).st := by
  decide

/-- C1 amended: every routing miss of `handle_question_callback`
(malformed payload, unknown question id, unknown option key) leaves the
session state completely unchanged and produces no effect; the returned
conversation label, however, is not the pre-event state: it is
`DIAGNOSIS` for a malformed payload or unknown question id, and the
callback question's own section state for an unknown option key. -/
theorem c1_amended_routing_miss (qs : List Question) (chat_id msg_id fresh : Nat)
    (cur : ConversationState) (ud : UserData) (data : String) :
    ((pySplit '|' data).length ≠ 3 →
      handle_question_callback qs chat_id msg_id fresh data cur ud =
        ⟨.DIAGNOSIS, ud, []⟩) ∧
    (∀ tag qid payload, pySplit '|' data = [tag, qid, payload] →
      get_question_by_id qs qid = none →
      handle_question_callback qs chat_id msg_id fresh data cur ud =
        ⟨.DIAGNOSIS, ud, []⟩) ∧
    (∀ tag qid payload q, pySplit '|' data = [tag, qid, payload] →
      payload ≠ "done" →
      get_question_by_id qs qid = some q →
      find_option_by_key q payload = none →
      handle_question_callback qs chat_id msg_id fresh data cur ud =
        ⟨state_for_question q, ud, []⟩) := by
  refine ⟨?_, ?_, ?_⟩
  · intro hlen
    unfold handle_question_callback
    cases hp : pySplit '|' data with
    | nil => simp
    | cons a tl =>
        cases tl with
        | nil => simp
        | cons b tl2 =>
            cases tl2 with
            | nil => simp
            | cons c tl3 =>
                cases tl3 with
                | nil => exact absurd (by simp [hp]) hlen
                | cons d tl4 => simp
  · intro tag qid payload hsplit hq
    unfold handle_question_callback
    rw [hsplit]
    simp [hq]
  · intro tag qid payload q hsplit hpd hq hopt
    unfold handle_question_callback
    rw [hsplit]
    simp [hq, hpd, hopt]

/-- C1 amended witness: the malformed-payload miss at the concrete input
of the counterexample trace. -/
theorem c1_amended_routing_miss_witness :
    handle_question_callback [readinessQ] 7 103 4 "q|x" .READINESS freshSession =
      ⟨.DIAGNOSIS, freshSession, []⟩ :=
  (c1_amended_routing_miss [readinessQ] 7 103 4 .READINESS freshSession "q|x").1
    (by decide)

/-! Claim C5: consuming the free-text follow-up of a requiresFreeText
option. -/

theorem format_question_text_congr {ud1 ud2 : UserData}
    (h : ud1.answers = ud2.answers) (q : Question) :
    format_question_text q ud1 = format_question_text q ud2 := by
  unfold format_question_text get_answer
  rw [h]

theorem send_next_question_awaiting_other (qs : List Question)
    (chat_id fresh : Nat) (b : Bool) (ud : UserData) :
    (send_next_question qs chat_id fresh b ud).ud.awaiting_other =
      (ensure_user_data ud).awaiting_other ∨
    (send_next_question qs chat_id fresh b ud).ud.awaiting_other = none := by
  unfold send_next_question advance_question get_current_question
    handle_questionnaire_complete send_question set_current_question_message
  cases b with
  | true =>
      simp only [if_true]
      cases hx : (if 0 ≤ (ensure_user_data ud).question_index ∧
          (ensure_user_data ud).question_index < (qs.length : Int)
        then qs[(ensure_user_data ud).question_index.toNat]? else none) with
      | none => simp [hx]
      | some q =>
          simp only [hx]
          right
          rw [ensure_user_data_of_isSome (ensure_answers_isSome ud)]
          by_cases h1 : q.options ≠ [] <;> cases h2 : q.expects_text <;> simp [h1, h2]
  | false =>
      simp only [Bool.false_eq_true, if_false]
      cases hx : (if 0 ≤ (ensure_user_data ud).question_index + 1 ∧
          (ensure_user_data ud).question_index + 1 < (qs.length : Int)
        then qs[((ensure_user_data ud).question_index + 1).toNat]? else none) with
      | none => simp [hx]
      | some q =>
          simp only [hx]
          right
          have hsome : ({ ensure_user_data ud with
              question_index := (ensure_user_data ud).question_index + 1 } :
                UserData).answers.isSome := ensure_answers_isSome ud
          rw [ensure_user_data_of_isSome hsome]
          by_cases h1 : q.options ≠ [] <;> cases h2 : q.expects_text <;> simp [h1, h2]

/-- The choice entry produced by appending a custom `label: value` pair to
an existing (or missing) answer, as `append_custom_answer` builds it. -/
def custom_appended (a : Option Answer) (l v : String) : Answer :=
  match a with
  | some (.choice sel cust) => .choice sel (cust ++ [(l, v)])
  | _ => .choice [] [(l, v)]

theorem append_custom_answer_spec (ud : UserData) (qid l v : String)
    (hshape : get_answer ud qid = none ∨
      ∃ sel cust, get_answer ud qid = some (.choice sel cust)) :
    ∃ udA, append_custom_answer ud qid l v = some udA ∧
      udA.answers = some (setA (ud.answers.getD []) qid
        (custom_appended (get_answer ud qid) l v)) ∧
      udA.question_index = ud.question_index ∧
      udA.awaiting_text = ud.awaiting_text ∧
      udA.awaiting_other = ud.awaiting_other ∧
      udA.current_question_message = ud.current_question_message := by
  rcases hshape with hnone | ⟨sel, cust, hsc⟩
  · have hl : lookupA (ud.answers.getD []) qid = none := hnone
    refine ⟨{ ud with answers := some (setA (ud.answers.getD []) qid
        (.choice [] [(l, v)])) }, ?_, ?_, rfl, rfl, rfl, rfl⟩
    · simp [append_custom_answer, hl]
    · rw [show get_answer ud qid = none from hnone]
      rfl
  · have hl : lookupA (ud.answers.getD []) qid = some (.choice sel cust) := hsc
    refine ⟨{ ud with answers := some (setA (ud.answers.getD []) qid
        (.choice sel (cust ++ [(l, v)]))) }, ?_, ?_, rfl, rfl, rfl, rfl⟩
    · simp [append_custom_answer, hl]
    · rw [show get_answer ud qid = some (.choice sel cust) from hsc]
      rfl

/-- C5: when `awaiting_other` is set for an existing question and the next
plain-text message arrives, a multi-select question gets the stripped text
appended as a custom `label: value` entry, the flag is cleared, the stored
card (when one is referenced) is edited in place with the re-rendered
text, and the cursor does not move; a single-select question gets the
stripped text recorded as its scalar answer, the flag is cleared, and the
cursor advances by one. -/
theorem c5_free_text_follow_up (qs : List Question)
    (slOpts : List (String × String)) (chat_id fresh : Nat) (reply : String)
    (cur : ConversationState) (raw : String) (ud : UserData)
    (ctx : OtherCtx) (q : Question)
    (hinit : ud.answers.isSome)
    (hctx : ud.awaiting_other = some ctx)
    (hq : get_question_by_id qs ctx.question_id = some q)
    (hshape : get_answer ud ctx.question_id = none ∨
      ∃ sel cust, get_answer ud ctx.question_id = some (.choice sel cust)) :
    (q.multi_select = true →
      (handle_text_response qs slOpts chat_id fresh reply cur raw ud).st =
        state_for_question q ∧
      (handle_text_response qs slOpts chat_id fresh reply cur raw ud).ud.awaiting_other
        = none ∧
      (handle_text_response qs slOpts chat_id fresh reply cur raw ud).ud.question_index
        = ud.question_index ∧
      get_answer (handle_text_response qs slOpts chat_id fresh reply cur raw ud).ud
          ctx.question_id =
        some (custom_appended (get_answer ud ctx.question_id) ctx.option_text
          (pyStrip raw)) ∧
      (∀ c m, ud.current_question_message = some (c, m) →
        (handle_text_response qs slOpts chat_id fresh reply cur raw ud).effs =
          [.editMessage c m (format_question_text q
            (handle_text_response qs slOpts chat_id fresh reply cur raw ud).ud)]) ∧
      (ud.current_question_message = none →
        (handle_text_response qs slOpts chat_id fresh reply cur raw ud).effs = [])) ∧
    (q.multi_select = false →
      (handle_text_response qs slOpts chat_id fresh reply cur raw ud).ud.question_index
        = ud.question_index + 1 ∧
      get_answer (handle_text_response qs slOpts chat_id fresh reply cur raw ud).ud
          ctx.question_id =
        some (.scalar (pyStrip raw)) ∧
      (handle_text_response qs slOpts chat_id fresh reply cur raw ud).ud.awaiting_other
        = none) := by
  obtain ⟨udA, happ, hansA, hidxA, hatA, haoA, hcmA⟩ :=
    append_custom_answer_spec ud ctx.question_id ctx.option_text (pyStrip raw) hshape
  constructor
  · intro hms
    simp only [handle_text_response]
    rw [ensure_user_data_of_isSome hinit, hctx]
    simp only [hq, hms, happ, reduceIte]
    have hud2cm : ({ udA with awaiting_other := none } : UserData).current_question_message
        = ud.current_question_message := hcmA
    cases hcm : ud.current_question_message with
    | none =>
        have hr : refresh_question_message q { udA with awaiting_other := none } =
            ({ udA with awaiting_other := none }, []) := by
          unfold refresh_question_message get_current_question_message
          rw [hud2cm, hcm]
        simp only [hr]
        refine ⟨by trivial, by trivial, by simpa using hidxA, ?_, ?_, ?_⟩
        · simp only [get_answer, hansA, Option.getD_some, lookupA_setA_self]
        · intro c m hm
          exact absurd hm (by simp)
        · intro h2
          trivial
    | some cm =>
        obtain ⟨c0, m0⟩ := cm
        have hr : refresh_question_message q { udA with awaiting_other := none } =
            ({ udA with awaiting_other := none, current_question_message := some (c0, m0) },
              [.editMessage c0 m0 (format_question_text q
                { udA with awaiting_other := none })]) := by
          unfold refresh_question_message get_current_question_message
            set_current_question_message
          rw [hud2cm, hcm]
        simp only [hr]
        refine ⟨by trivial, by trivial, by simpa using hidxA, ?_, ?_, ?_⟩
        · simp only [get_answer, hansA, Option.getD_some, lookupA_setA_self]
        · intro c m hm
          simp only [Option.some.injEq, Prod.mk.injEq] at hm
          obtain ⟨rfl, rfl⟩ := hm
          refine congrArg (fun t => [Effect.editMessage _ _ t]) ?_
          exact format_question_text_congr rfl q
        · intro hnone
          exact absurd hnone (by simp)
  · intro hms
    simp only [handle_text_response]
    rw [ensure_user_data_of_isSome hinit, hctx]
    simp only [hq, hms, Bool.false_eq_true, reduceIte]
    have hud2 : ({ record_single_answer ud ctx.question_id (.scalar (pyStrip raw)) with
        awaiting_other := none } : UserData).answers.isSome := by
      simp [record_single_answer]
    have hadv := send_next_question_advance qs chat_id fresh
      { record_single_answer ud ctx.question_id (.scalar (pyStrip raw)) with
        awaiting_other := none }
    rw [ensure_user_data_of_isSome hud2] at hadv
    have hao := send_next_question_awaiting_other qs chat_id fresh false
      { record_single_answer ud ctx.question_id (.scalar (pyStrip raw)) with
        awaiting_other := none }
    rw [ensure_user_data_of_isSome hud2] at hao
    refine ⟨?_, ?_, ?_⟩
    · rw [hadv.1]
      rfl
    · rw [show get_answer (send_next_question qs chat_id fresh false
          { record_single_answer ud ctx.question_id (.scalar (pyStrip raw)) with
            awaiting_other := none }).ud ctx.question_id =
          lookupA ((send_next_question qs chat_id fresh false
          { record_single_answer ud ctx.question_id (.scalar (pyStrip raw)) with
            awaiting_other := none }).ud.answers.getD []) ctx.question_id from rfl]
      rw [hadv.2]
      simp only [record_single_answer, Option.getD_some, lookupA_setA_self]
    · rcases hao with h | h <;> simpa using h

/-- Context of the C5 witness: the requiresFreeText option `Other` of the
multi-select question `m1` was selected. -/
def c5Ctx : OtherCtx := ⟨"m1", "Other", "business", true⟩

/-- The multi-select question of the C5 witness. -/
def c5Question : Question :=
  ⟨"m1", "M1", "business", true, false, [⟨"a", "A", false⟩, ⟨"o", "Other", true⟩]⟩

/-- Session of the C5 witness: awaiting the free-text follow-up. -/
def c5Session : UserData := { freshSession with awaiting_other := some c5Ctx }

/-- C5 witness: the multi-select half of the theorem at a concrete session
and catalog - the custom entry is appended, the flag cleared and the
cursor unchanged. -/
theorem c5_free_text_follow_up_witness :
    (handle_text_response [c5Question] stdSl 7 4 "R" .DIAGNOSIS " hello "
        c5Session).ud.awaiting_other = none ∧
    (handle_text_response [c5Question] stdSl 7 4 "R" .DIAGNOSIS " hello "
        c5Session).ud.question_index = c5Session.question_index ∧
    get_answer (handle_text_response [c5Question] stdSl 7 4 "R" .DIAGNOSIS " hello "
        c5Session).ud c5Ctx.question_id =
      some (custom_appended (get_answer c5Session c5Ctx.question_id)
        c5Ctx.option_text (pyStrip " hello ")) :=
  let h := (c5_free_text_follow_up [c5Question] stdSl 7 4 "R" .DIAGNOSIS " hello "
    c5Session c5Ctx c5Question (by decide) rfl (by decide) (Or.inl (by decide))).1
    (by decide)
  ⟨h.2.1, h.2.2.1, h.2.2.2.1⟩

/-! Shared characterization lemmas for the step-level invariants
(claims about reachable states). -/

theorem toggle_multi_option_fields (ud : UserData) (q : Question) (opt : QOption)
    (ud2 : UserData) (h : toggle_multi_option ud q opt = some ud2) :
    ud2.answers.isSome ∧ ud2.question_index = ud.question_index ∧
    ud2.sheets_saved = ud.sheets_saved ∧
    ud2.awaiting_text = ud.awaiting_text ∧
    ud2.awaiting_other = ud.awaiting_other ∧
    ud2.report_ready = ud.report_ready ∧
    ud2.diagnosis_complete = ud.diagnosis_complete := by
  simp only [toggle_multi_option] at h
  cases hl : lookupA (ud.answers.getD []) q.id with
  | none =>
      rw [hl] at h
      cases h
      exact ⟨rfl, rfl, rfl, rfl, rfl, rfl, rfl⟩
  | some a =>
      rw [hl] at h
      cases a with
      | scalar v => cases h
      | strlist items => cases h
      | choice sel cust =>
          cases h
          exact ⟨rfl, rfl, rfl, rfl, rfl, rfl, rfl⟩

theorem send_question_char (chat_id msg_id : Nat) (q : Question) (ud : UserData)
    (h : ud.answers.isSome) :
    (send_question chat_id msg_id q ud).st = state_for_question q ∧
    (send_question chat_id msg_id q ud).ud.answers = ud.answers ∧
    (send_question chat_id msg_id q ud).ud.question_index = ud.question_index ∧
    (send_question chat_id msg_id q ud).ud.sheets_saved = ud.sheets_saved ∧
    (send_question chat_id msg_id q ud).ud.awaiting_other = none ∧
    (send_question chat_id msg_id q ud).ud.report_ready = ud.report_ready ∧
    (send_question chat_id msg_id q ud).ud.diagnosis_complete = ud.diagnosis_complete ∧
    Effect.invokePersist ∉ (send_question chat_id msg_id q ud).effs := by
  unfold send_question
  rw [ensure_user_data_of_isSome h]
  by_cases h1 : q.options ≠ [] <;> cases h2 : q.expects_text <;>
    simp [h1, h2, set_current_question_message]

theorem send_next_question_char (qs : List Question) (chat_id fresh : Nat)
    (b : Bool) (ud : UserData) (h : ud.answers.isSome) :
    (send_next_question qs chat_id fresh b ud).ud.answers.isSome ∧
    (send_next_question qs chat_id fresh b ud).ud.sheets_saved = ud.sheets_saved ∧
    Effect.invokePersist ∉ (send_next_question qs chat_id fresh b ud).effs ∧
    (b = true →
      (send_next_question qs chat_id fresh b ud).ud.question_index =
        ud.question_index) ∧
    (b = false →
      (send_next_question qs chat_id fresh b ud).ud.question_index =
        ud.question_index + 1) ∧
    ((send_next_question qs chat_id fresh b ud).st = .REPORT ∨
      (((send_next_question qs chat_id fresh b ud).st = .DIAGNOSIS ∨
        (send_next_question qs chat_id fresh b ud).st = .READINESS) ∧
        0 ≤ (send_next_question qs chat_id fresh b ud).ud.question_index ∧
        (send_next_question qs chat_id fresh b ud).ud.question_index <
          (qs.length : Int))) := by
  unfold send_next_question advance_question get_current_question
    handle_questionnaire_complete
  rw [ensure_user_data_of_isSome h]
  cases b with
  | true =>
      simp only [if_true]
      by_cases hg : 0 ≤ ud.question_index ∧ ud.question_index < (qs.length : Int)
      · rw [if_pos hg]
        cases hx : qs[ud.question_index.toNat]? with
        | none => simp [h]
        | some q =>
            simp only
            have hc := send_question_char chat_id fresh q ud h
            refine ⟨?_, ?_, ?_, ?_, ?_, ?_⟩
            · rw [hc.2.1]; exact h
            · exact hc.2.2.2.1
            · exact hc.2.2.2.2.2.2.2
            · intro _; exact hc.2.2.1
            · intro hb; cases hb
            · right
              refine ⟨?_, ?_, ?_⟩
              · rw [hc.1]; unfold state_for_question
                by_cases hs : q.sectionTag = "business" <;> simp [hs]
              · rw [hc.2.2.1]; exact hg.1
              · rw [hc.2.2.1]; exact hg.2
      · rw [if_neg hg]
        simp [h]
  | false =>
      simp only [Bool.false_eq_true, if_false]
      by_cases hg : 0 ≤ ud.question_index + 1 ∧
          ud.question_index + 1 < (qs.length : Int)
      · rw [if_pos hg]
        cases hx : qs[(ud.question_index + 1).toNat]? with
        | none => simp [h]
        | some q =>
            simp only
            have h2 : ({ ud with question_index := ud.question_index + 1 } :
                UserData).answers.isSome := h
            have hc := send_question_char chat_id fresh q
              { ud with question_index := ud.question_index + 1 } h2
            refine ⟨?_, ?_, ?_, ?_, ?_, ?_⟩
            · rw [hc.2.1]; exact h2
            · exact hc.2.2.2.1
            · exact hc.2.2.2.2.2.2.2
            · intro hb; cases hb
            · intro _; exact hc.2.2.1
            · right
              refine ⟨?_, ?_, ?_⟩
              · rw [hc.1]; unfold state_for_question
                by_cases hs : q.sectionTag = "business" <;> simp [hs]
              · rw [hc.2.2.1]; exact hg.1
              · rw [hc.2.2.1]; exact hg.2
      · rw [if_neg hg]
        simp [h]

theorem handle_question_callback_char (qs : List Question)
    (chat_id msg_id fresh : Nat) (data : String) (cur : ConversationState)
    (ud : UserData) (h : ud.answers.isSome) (h0 : 0 ≤ ud.question_index)
    (hlt : ud.question_index < (qs.length : Int))
    (hcur : cur = .DIAGNOSIS ∨ cur = .READINESS) :
    (handle_question_callback qs chat_id msg_id fresh data cur ud).ud.answers.isSome ∧
    (handle_question_callback qs chat_id msg_id fresh data cur ud).ud.sheets_saved
      = ud.sheets_saved ∧
    Effect.invokePersist ∉
      (handle_question_callback qs chat_id msg_id fresh data cur ud).effs ∧
    ud.question_index ≤
      (handle_question_callback qs chat_id msg_id fresh data cur ud).ud.question_index ∧
    (handle_question_callback qs chat_id msg_id fresh data cur ud).ud.question_index
      ≤ ud.question_index + 1 ∧
    0 ≤ (handle_question_callback qs chat_id msg_id fresh data cur ud).ud.question_index ∧
    (handle_question_callback qs chat_id msg_id fresh data cur ud).ud.question_index
      ≤ (qs.length : Int) ∧
    (((handle_question_callback qs chat_id msg_id fresh data cur ud).st = .DIAGNOSIS ∨
      (handle_question_callback qs chat_id msg_id fresh data cur ud).st = .READINESS) →
      (handle_question_callback qs chat_id msg_id fresh data cur ud).ud.question_index
        < (qs.length : Int)) := by
  unfold handle_question_callback
  cases hp : pySplit '|' data with
  | nil =>
      dsimp only
      refine ⟨h, by trivial, by simp, le_refl _, by omega, h0, le_of_lt hlt, fun _ => hlt⟩
  | cons a tl =>
      cases tl with
      | nil =>
          dsimp only
          refine ⟨h, by trivial, by simp, le_refl _, by omega, h0, le_of_lt hlt, fun _ => hlt⟩
      | cons b tl2 =>
          cases tl2 with
          | nil =>
              dsimp only
              refine ⟨h, by trivial, by simp, le_refl _, by omega, h0, le_of_lt hlt,
                fun _ => hlt⟩
          | cons c tl3 =>
              cases tl3 with
              | cons d tl4 =>
                  dsimp only
                  refine ⟨h, by trivial, by simp, le_refl _, by omega, h0, le_of_lt hlt,
                    fun _ => hlt⟩
              | nil =>
                  dsimp only
                  cases hq : get_question_by_id qs b with
                  | none =>
                      simp only [hq]
                      refine ⟨h, by trivial, by simp, le_refl _, by omega, h0, le_of_lt hlt,
                        fun _ => hlt⟩
                  | some q =>
                      simp only [hq]
                      by_cases hdone : c = "done"
                      · simp only [hdone, reduceIte, handle_multi_done]
                        have hc := send_next_question_char qs chat_id fresh false ud h
                        have hidx := hc.2.2.2.2.1 rfl
                        refine ⟨hc.1, hc.2.1, hc.2.2.1, by omega, by omega,
                          by omega, by omega, ?_⟩
                        intro hst
                        rcases hc.2.2.2.2.2 with hrep | ⟨_, _, hb⟩
                        · rcases hst with hst | hst <;> rw [hrep] at hst <;> cases hst
                        · exact hb
                      · simp only [if_neg hdone]
                        cases hopt : find_option_by_key q c with
                        | none =>
                            simp only [hopt]
                            refine ⟨h, by trivial, by simp, le_refl _, by omega, h0,
                              le_of_lt hlt, fun _ => hlt⟩
                        | some opt =>
                            simp only [hopt]
                            cases hrft : opt.requires_free_text with
                            | true =>
                                simp only [hrft, reduceIte]
                                refine ⟨h, by trivial, by simp, le_refl _, by omega, h0,
                                  le_of_lt hlt, fun _ => hlt⟩
                            | false =>
                                simp only [hrft, Bool.false_eq_true, reduceIte]
                                cases hms : q.multi_select with
                                | true =>
                                    simp only [hms, reduceIte]
                                    rw [ensure_user_data_of_isSome h]
                                    cases htog : toggle_multi_option ud q opt with
                                    | none =>
                                        simp only [htog]
                                        refine ⟨h, by trivial, by simp, le_refl _, by omega,
                                          h0, le_of_lt hlt, fun _ => hlt⟩
                                    | some ud2 =>
                                        simp only [htog]
                                        have hf := toggle_multi_option_fields ud q opt
                                          ud2 htog
                                        simp only [set_current_question_message]
                                        refine ⟨hf.1, hf.2.2.1, by simp, ?_, ?_, ?_,
                                          ?_, ?_⟩
                                        · rw [hf.2.1]
                                        · rw [hf.2.1]; omega
                                        · rw [hf.2.1]; exact h0
                                        · rw [hf.2.1]; exact le_of_lt hlt
                                        · intro _; rw [hf.2.1]; exact hlt
                                | false =>
                                    simp only [hms, Bool.false_eq_true, reduceIte]
                                    have h1 : (record_single_answer ud q.id
                                        (.scalar opt.text)).answers.isSome := by
                                      simp [record_single_answer]
                                    have hc := send_next_question_char qs chat_id fresh
                                      false (record_single_answer ud q.id
                                        (.scalar opt.text)) h1
                                    have hidx := hc.2.2.2.2.1 rfl
                                    have hrec : (record_single_answer ud q.id
                                        (.scalar opt.text)).question_index =
                                        ud.question_index := rfl
                                    have hshs : (record_single_answer ud q.id
                                        (.scalar opt.text)).sheets_saved =
                                        ud.sheets_saved := rfl
                                    rw [hrec] at hidx
                                    rw [hshs] at hc
                                    refine ⟨hc.1, hc.2.1, hc.2.2.1, by omega, by omega,
                                      by omega, by omega, ?_⟩
                                    intro hst
                                    rcases hc.2.2.2.2.2 with hrep | ⟨_, _, hb⟩
                                    · rcases hst with hst | hst <;> rw [hrep] at hst <;>
                                        cases hst
                                    · exact hb

theorem append_chat_history_fields (ud : UserData) (role message : String)
    (limit : Nat) :
    (append_chat_history ud role message limit).answers = ud.answers ∧
    (append_chat_history ud role message limit).question_index = ud.question_index ∧
    (append_chat_history ud role message limit).sheets_saved = ud.sheets_saved ∧
    (append_chat_history ud role message limit).awaiting_text = ud.awaiting_text ∧
    (append_chat_history ud role message limit).awaiting_other = ud.awaiting_other := by
  unfold append_chat_history
  by_cases hl : limit < (ud.chat_history ++ [(role, message)]).length <;> simp [hl]

theorem append_custom_answer_fields (ud : UserData) (qid l v : String)
    (ud1 : UserData) (h : append_custom_answer ud qid l v = some ud1) :
    ud1.answers.isSome ∧ ud1.question_index = ud.question_index ∧
    ud1.sheets_saved = ud.sheets_saved ∧
    ud1.awaiting_text = ud.awaiting_text ∧
    ud1.awaiting_other = ud.awaiting_other ∧
    ud1.report_ready = ud.report_ready := by
  simp only [append_custom_answer] at h
  cases hl : lookupA (ud.answers.getD []) qid with
  | none =>
      rw [hl] at h
      cases h
      exact ⟨rfl, rfl, rfl, rfl, rfl, rfl⟩
  | some a =>
      rw [hl] at h
      cases a with
      | scalar v2 => cases h
      | strlist items => cases h
      | choice sel cust =>
          cases h
          exact ⟨rfl, rfl, rfl, rfl, rfl, rfl⟩

theorem refresh_question_message_fields (q : Question) (ud : UserData) :
    (refresh_question_message q ud).1.answers = ud.answers ∧
    (refresh_question_message q ud).1.question_index = ud.question_index ∧
    (refresh_question_message q ud).1.sheets_saved = ud.sheets_saved ∧
    (refresh_question_message q ud).1.awaiting_text = ud.awaiting_text ∧
    (refresh_question_message q ud).1.awaiting_other = ud.awaiting_other ∧
    Effect.invokePersist ∉ (refresh_question_message q ud).2 := by
  unfold refresh_question_message get_current_question_message
    set_current_question_message
  cases hcm : ud.current_question_message with
  | none => simp
  | some cm =>
      obtain ⟨c, m⟩ := cm
      simp

theorem handle_chat_message_char (qs : List Question)
    (slOpts : List (String × String)) (chat_id : Nat) (reply raw : String)
    (ud : UserData) (h : ud.answers.isSome) :
    (handle_chat_message qs slOpts chat_id reply raw ud).ud.answers.isSome ∧
    (handle_chat_message qs slOpts chat_id reply raw ud).ud.sheets_saved
      = ud.sheets_saved ∧
    Effect.invokePersist ∉ (handle_chat_message qs slOpts chat_id reply raw ud).effs ∧
    (handle_chat_message qs slOpts chat_id reply raw ud).ud.question_index
      = ud.question_index ∧
    ((handle_chat_message qs slOpts chat_id reply raw ud).st = .CHAT ∨
      (handle_chat_message qs slOpts chat_id reply raw ud).st = .REPORT) := by
  simp only [handle_chat_message]
  rw [ensure_user_data_of_isSome h]
  cases hrr : ud.report_ready with
  | false =>
      simp [hrr, h]
  | true =>
      simp only [hrr, Bool.not_true, Bool.false_eq_true, reduceIte]
      by_cases hum : pyStrip raw = ""
      · simp [hum, h]
      · have ha := append_chat_history_fields ud "user" (pyStrip raw) 12
        by_cases hrep : reply = ""
        · simp [hum, hrep, h, ha.1, ha.2.1, ha.2.2.1]
        · have ha2 := append_chat_history_fields
            (append_chat_history ud "user" (pyStrip raw) 12) "assistant" reply 12
          simp [hum, hrep, h, ha.1, ha.2.1, ha.2.2.1, ha2.1, ha2.2.1, ha2.2.2.1]

theorem handle_text_response_char (qs : List Question)
    (slOpts : List (String × String)) (chat_id fresh : Nat) (reply : String)
    (cur : ConversationState) (raw : String) (ud : UserData)
    (h : ud.answers.isSome) (h0 : 0 ≤ ud.question_index)
    (hlt : ud.question_index < (qs.length : Int))
    (hcur : cur = .DIAGNOSIS ∨ cur = .READINESS) :
    (handle_text_response qs slOpts chat_id fresh reply cur raw ud).ud.answers.isSome ∧
    (handle_text_response qs slOpts chat_id fresh reply cur raw ud).ud.sheets_saved
      = ud.sheets_saved ∧
    Effect.invokePersist ∉
      (handle_text_response qs slOpts chat_id fresh reply cur raw ud).effs ∧
    ud.question_index ≤
      (handle_text_response qs slOpts chat_id fresh reply cur raw ud).ud.question_index ∧
    (handle_text_response qs slOpts chat_id fresh reply cur raw ud).ud.question_index
      ≤ ud.question_index + 1 ∧
    0 ≤ (handle_text_response qs slOpts chat_id fresh reply cur raw ud).ud.question_index ∧
    (handle_text_response qs slOpts chat_id fresh reply cur raw ud).ud.question_index
      ≤ (qs.length : Int) ∧
    (((handle_text_response qs slOpts chat_id fresh reply cur raw ud).st = .DIAGNOSIS ∨
      (handle_text_response qs slOpts chat_id fresh reply cur raw ud).st = .READINESS) →
      (handle_text_response qs slOpts chat_id fresh reply cur raw ud).ud.question_index
        < (qs.length : Int)) := by
  have hfall : (handle_chat_message qs slOpts chat_id reply raw ud).ud.answers.isSome ∧
      (handle_chat_message qs slOpts chat_id reply raw ud).ud.sheets_saved
        = ud.sheets_saved ∧
      Effect.invokePersist ∉ (handle_chat_message qs slOpts chat_id reply raw ud).effs ∧
      (handle_chat_message qs slOpts chat_id reply raw ud).ud.question_index
        = ud.question_index ∧
      ((handle_chat_message qs slOpts chat_id reply raw ud).st = .CHAT ∨
        (handle_chat_message qs slOpts chat_id reply raw ud).st = .REPORT) :=
    handle_chat_message_char qs slOpts chat_id reply raw ud h
  simp only [handle_text_response]
  rw [ensure_user_data_of_isSome h]
  cases hao : ud.awaiting_other with
  | some ctx =>
      cases hq : get_question_by_id qs ctx.question_id with
      | none =>
          simp only [hq]
          refine ⟨h, by trivial, by simp, le_refl _, le_of_lt (lt_add_one _), h0,
            le_of_lt hlt, fun _ => hlt⟩
      | some q =>
          simp only [hq]
          cases hms : q.multi_select with
          | true =>
              simp only [hms, reduceIte]
              cases happ : append_custom_answer ud ctx.question_id ctx.option_text
                  (pyStrip raw) with
              | none =>
                  refine ⟨h, by trivial, by simp, le_refl _, le_of_lt (lt_add_one _), h0,
                    le_of_lt hlt, fun _ => hlt⟩
              | some ud1 =>
                  have hf := append_custom_answer_fields ud ctx.question_id
                    ctx.option_text (pyStrip raw) ud1 happ
                  have hr := refresh_question_message_fields q
                    { ud1 with awaiting_other := none }
                  refine ⟨?_, ?_, hr.2.2.2.2.2, ?_, ?_, ?_, ?_, ?_⟩
                  · rw [hr.1]; exact hf.1
                  · rw [hr.2.2.1]; exact hf.2.2.1
                  · rw [hr.2.1]; rw [show ({ ud1 with awaiting_other := none } :
                      UserData).question_index = ud1.question_index from rfl, hf.2.1]
                  · rw [hr.2.1]; rw [show ({ ud1 with awaiting_other := none } :
                      UserData).question_index = ud1.question_index from rfl, hf.2.1]
                    exact le_of_lt (lt_add_one _)
                  · rw [hr.2.1]; rw [show ({ ud1 with awaiting_other := none } :
                      UserData).question_index = ud1.question_index from rfl, hf.2.1]
                    exact h0
                  · rw [hr.2.1]; rw [show ({ ud1 with awaiting_other := none } :
                      UserData).question_index = ud1.question_index from rfl, hf.2.1]
                    exact le_of_lt hlt
                  · intro _
                    rw [hr.2.1]; rw [show ({ ud1 with awaiting_other := none } :
                      UserData).question_index = ud1.question_index from rfl, hf.2.1]
                    exact hlt
          | false =>
              simp only [hms, Bool.false_eq_true, reduceIte]
              have h1 : ({ record_single_answer ud ctx.question_id
                  (.scalar (pyStrip raw)) with awaiting_other := none } :
                    UserData).answers.isSome := by
                simp [record_single_answer]
              have hc := send_next_question_char qs chat_id fresh false
                { record_single_answer ud ctx.question_id (.scalar (pyStrip raw)) with
                  awaiting_other := none } h1
              have hidx2 : (send_next_question qs chat_id fresh false
                  { record_single_answer ud ctx.question_id (.scalar (pyStrip raw)) with
                    awaiting_other := none }).ud.question_index =
                  ud.question_index + 1 := hc.2.2.2.2.1 rfl
              refine ⟨hc.1, hc.2.1, hc.2.2.1,
                le_of_le_of_eq (by omega) hidx2.symm, le_of_eq hidx2,
                le_of_le_of_eq (by omega) hidx2.symm,
                hidx2.trans_le (by omega), ?_⟩
              intro hst
              rcases hc.2.2.2.2.2 with hrep | ⟨_, _, hb⟩
              · rcases hst with hst | hst <;> rw [hrep] at hst <;> cases hst
              · exact hb
  | none =>
      cases hat : ud.awaiting_text with
      | some qid =>
          dsimp only
          by_cases hne : qid ≠ ""
          · rw [if_pos hne]
            cases hq : get_question_by_id qs qid with
            | some q =>
                simp only [hq]
                have h1 : ({ record_single_answer ud q.id (.scalar (pyStrip raw)) with
                    awaiting_text := none } : UserData).answers.isSome := by
                  simp [record_single_answer]
                have hc := send_next_question_char qs chat_id fresh false
                  { record_single_answer ud q.id (.scalar (pyStrip raw)) with
                    awaiting_text := none } h1
                have hidx2 : (send_next_question qs chat_id fresh false
                    { record_single_answer ud q.id (.scalar (pyStrip raw)) with
                      awaiting_text := none }).ud.question_index =
                    ud.question_index + 1 := hc.2.2.2.2.1 rfl
                refine ⟨hc.1, hc.2.1, hc.2.2.1,
                  le_of_le_of_eq (by omega) hidx2.symm, le_of_eq hidx2,
                  le_of_le_of_eq (by omega) hidx2.symm,
                  hidx2.trans_le (by omega), ?_⟩
                intro hst
                rcases hc.2.2.2.2.2 with hrep | ⟨_, _, hb⟩
                · rcases hst with hst | hst <;> rw [hrep] at hst <;> cases hst
                · exact hb
            | none =>
                simp only [hq]
                cases hrr : ud.report_ready with
                | true =>
                    simp only [hrr, reduceIte]
                    refine ⟨hfall.1, hfall.2.1, hfall.2.2.1, ?_, ?_, ?_, ?_, ?_⟩
                    · rw [hfall.2.2.2.1]
                    · rw [hfall.2.2.2.1]; exact le_of_lt (lt_add_one _)
                    · rw [hfall.2.2.2.1]; exact h0
                    · rw [hfall.2.2.2.1]; exact le_of_lt hlt
                    · intro hst
                      rcases hfall.2.2.2.2 with hs | hs <;>
                        rcases hst with hst | hst <;> rw [hs] at hst <;> cases hst
                | false =>
                    simp only [hrr, Bool.false_eq_true, reduceIte]
                    refine ⟨h, by trivial, by simp, le_refl _, le_of_lt (lt_add_one _), h0,
                      le_of_lt hlt, fun _ => hlt⟩
          · rw [if_neg hne]
            cases hrr : ud.report_ready with
            | true =>
                simp only [hrr, reduceIte]
                refine ⟨hfall.1, hfall.2.1, hfall.2.2.1, ?_, ?_, ?_, ?_, ?_⟩
                · rw [hfall.2.2.2.1]
                · rw [hfall.2.2.2.1]; exact le_of_lt (lt_add_one _)
                · rw [hfall.2.2.2.1]; exact h0
                · rw [hfall.2.2.2.1]; exact le_of_lt hlt
                · intro hst
                  rcases hfall.2.2.2.2 with hs | hs <;>
                    rcases hst with hst | hst <;> rw [hs] at hst <;> cases hst
            | false =>
                simp only [hrr, Bool.false_eq_true, reduceIte]
                refine ⟨h, by trivial, by simp, le_refl _, le_of_lt (lt_add_one _), h0,
                  le_of_lt hlt, fun _ => hlt⟩
      | none =>
          cases hrr : ud.report_ready with
          | true =>
              simp only [hrr, reduceIte]
              refine ⟨hfall.1, hfall.2.1, hfall.2.2.1, ?_, ?_, ?_, ?_, ?_⟩
              · rw [hfall.2.2.2.1]
              · rw [hfall.2.2.2.1]; exact le_of_lt (lt_add_one _)
              · rw [hfall.2.2.2.1]; exact h0
              · rw [hfall.2.2.2.1]; exact le_of_lt hlt
              · intro hst
                rcases hfall.2.2.2.2 with hs | hs <;>
                  rcases hst with hst | hst <;> rw [hs] at hst <;> cases hst
          | false =>
              simp only [hrr, Bool.false_eq_true, reduceIte]
              refine ⟨h, by trivial, by simp, le_refl _, le_of_lt (lt_add_one _), h0,
                le_of_lt hlt, fun _ => hlt⟩

theorem report_after_persist_char (qs : List Question)
    (slOpts : List (String × String)) (chat_id : Nat) (oc : Oracles)
    (cur : ConversationState) (ud : UserData) (h : ud.answers.isSome) :
    (report_after_persist qs slOpts chat_id oc cur ud).ud.answers.isSome ∧
    (report_after_persist qs slOpts chat_id oc cur ud).ud.question_index
      = ud.question_index ∧
    (report_after_persist qs slOpts chat_id oc cur ud).ud.sheets_saved
      = ud.sheets_saved ∧
    Effect.invokePersist ∉ (report_after_persist qs slOpts chat_id oc cur ud).effs ∧
    ((report_after_persist qs slOpts chat_id oc cur ud).st = .REPORT ∨
      (report_after_persist qs slOpts chat_id oc cur ud).st = cur) := by
  unfold report_after_persist
  cases ha : oc.analyzeOk <;> cases hp : oc.pdfOk <;> cases hsend : oc.sendOk <;>
    simp [ha, hp, hsend, h]

theorem bool_not_true_eq_false (b : Bool) (h : ¬ b = true) : b = false := by
  cases b
  · rfl
  · exact absurd rfl h

theorem handle_report_request_char (qs : List Question)
    (slOpts : List (String × String)) (chat_id : Nat) (oc : Oracles)
    (cur : ConversationState) (ud : UserData) (h : ud.answers.isSome) :
    (handle_report_request qs slOpts chat_id oc cur ud).ud.answers.isSome ∧
    (handle_report_request qs slOpts chat_id oc cur ud).ud.question_index
      = ud.question_index ∧
    ((handle_report_request qs slOpts chat_id oc cur ud).ud.sheets_saved
      = ud.sheets_saved ∨
      (handle_report_request qs slOpts chat_id oc cur ud).ud.sheets_saved = true) ∧
    (ud.sheets_saved = true →
      (handle_report_request qs slOpts chat_id oc cur ud).ud.sheets_saved = true ∧
      Effect.invokePersist ∉ (handle_report_request qs slOpts chat_id oc cur ud).effs) ∧
    ((handle_report_request qs slOpts chat_id oc cur ud).st = .REPORT ∨
      (handle_report_request qs slOpts chat_id oc cur ud).st = cur) := by
  by_cases hdc : ud.diagnosis_complete = true
  · by_cases hss : ud.sheets_saved = true
    · have hstep : handle_report_request qs slOpts chat_id oc cur ud =
          report_after_persist qs slOpts chat_id oc cur ud := by
        simp only [handle_report_request]
        rw [ensure_user_data_of_isSome h, hdc, hss]
        rfl
      rw [hstep]
      have hr := report_after_persist_char qs slOpts chat_id oc cur ud h
      exact ⟨hr.1, hr.2.1, Or.inl hr.2.2.1,
        fun _ => ⟨hr.2.2.1.trans hss, hr.2.2.2.1⟩, hr.2.2.2.2⟩
    · have hss2 : ud.sheets_saved = false := bool_not_true_eq_false _ hss
      by_cases hpo : oc.persistOk = true
      · have hstep : handle_report_request qs slOpts chat_id oc cur ud =
            ⟨(report_after_persist qs slOpts chat_id oc cur
                { ud with sheets_saved := true }).st,
              (report_after_persist qs slOpts chat_id oc cur
                { ud with sheets_saved := true }).ud,
              .invokePersist :: (report_after_persist qs slOpts chat_id oc cur
                { ud with sheets_saved := true }).effs⟩ := by
          simp only [handle_report_request]
          rw [ensure_user_data_of_isSome h, hdc, hss2, hpo]
          rfl
        rw [hstep]
        have hr := report_after_persist_char qs slOpts chat_id oc cur
          { ud with sheets_saved := true } h
        refine ⟨hr.1, hr.2.1, Or.inr hr.2.2.1, ?_, hr.2.2.2.2⟩
        intro hs
        exact absurd (hss2.symm.trans hs) (by decide)
      · have hpo2 : oc.persistOk = false := bool_not_true_eq_false _ hpo
        have hstep : handle_report_request qs slOpts chat_id oc cur ud =
            ⟨cur, ud, [.invokePersist]⟩ := by
          simp only [handle_report_request]
          rw [ensure_user_data_of_isSome h, hdc, hss2, hpo2]
          rfl
        rw [hstep]
        refine ⟨h, rfl, Or.inl rfl, ?_, Or.inr rfl⟩
        intro hs
        exact absurd (hss2.symm.trans hs) (by decide)
  · have hdc2 : ud.diagnosis_complete = false := bool_not_true_eq_false _ hdc
    have hstep : handle_report_request qs slOpts chat_id oc cur ud =
        ⟨.REPORT, ud, [.sendMessage chat_id PRE_CHAT_REMINDER]⟩ := by
      simp only [handle_report_request]
      rw [ensure_user_data_of_isSome h, hdc2]
      rfl
    rw [hstep]
    exact ⟨h, rfl, Or.inl rfl, fun hs => ⟨hs, by simp⟩, Or.inl rfl⟩

theorem start_diagnosis_flow_char (qs : List Question) (chat_id fresh : Nat)
    (ud : UserData) (h : ud.answers.isSome) :
    (start_diagnosis_flow qs chat_id fresh ud).ud.answers.isSome ∧
    (start_diagnosis_flow qs chat_id fresh ud).ud.sheets_saved = ud.sheets_saved ∧
    Effect.invokePersist ∉ (start_diagnosis_flow qs chat_id fresh ud).effs ∧
    (start_diagnosis_flow qs chat_id fresh ud).ud.question_index = ud.question_index ∧
    ((start_diagnosis_flow qs chat_id fresh ud).st = .REPORT ∨
      (((start_diagnosis_flow qs chat_id fresh ud).st = .DIAGNOSIS ∨
        (start_diagnosis_flow qs chat_id fresh ud).st = .READINESS) ∧
        0 ≤ (start_diagnosis_flow qs chat_id fresh ud).ud.question_index ∧
        (start_diagnosis_flow qs chat_id fresh ud).ud.question_index <
          (qs.length : Int))) := by
  have hc := send_next_question_char qs chat_id (fresh + 1) true ud h
  unfold start_diagnosis_flow
  refine ⟨hc.1, hc.2.1, ?_, hc.2.2.2.1 rfl, hc.2.2.2.2.2⟩
  intro hmem
  simp only [List.mem_cons] at hmem
  rcases hmem with hmem | hmem
  · cases hmem
  · exact hc.2.2.1 hmem

/-- Invariant of reachable system states: the session is initialized, the
cursor lies within `[0, len(questions)]`, and in the two question states it
is strictly below the catalog length. -/
def SysInv (qs : List Question) (s : SysState) : Prop :=
  s.ud.answers.isSome = true ∧ 0 ≤ s.ud.question_index ∧
  s.ud.question_index ≤ (qs.length : Int) ∧
  ((s.st = ConversationState.DIAGNOSIS ∨ s.st = ConversationState.READINESS) →
    s.ud.question_index < (qs.length : Int))

theorem step_master (qs : List Question) (slOpts : List (String × String))
    (chat_id : Nat) (s : SysState) (e : Event) (hInv : SysInv qs s) :
    SysInv qs (step qs slOpts chat_id s e) ∧
    (e ≠ .start →
      s.ud.question_index ≤ (step qs slOpts chat_id s e).ud.question_index ∧
      (step qs slOpts chat_id s e).ud.question_index ≤ s.ud.question_index + 1 ∧
      (s.ud.sheets_saved = true →
        (step qs slOpts chat_id s e).ud.sheets_saved = true ∧
        Effect.invokePersist ∉ (stepE qs slOpts chat_id s e).2)) ∧
    (e = .start → (step qs slOpts chat_id s e).ud.question_index = 0) := by
  obtain ⟨st, ud, fresh⟩ := s
  obtain ⟨h, h0, hle, hDR⟩ := hInv
  simp only at h h0 hle hDR
  cases e with
  | start =>
      refine ⟨?_, fun hne => absurd rfl hne, fun _ => ?_⟩
      · simp only [step, stepE, start_command, reset_user_session]
        refine ⟨rfl, le_refl _, Int.natCast_nonneg _, ?_⟩
        intro hst
        rcases hst with hst | hst <;> cases hst
      · simp only [step, stepE, start_command, reset_user_session]
        rfl
  | callback data msg_id oc =>
      refine ⟨?_, fun _ => ?_, fun heq => Event.noConfusion heq⟩ <;>
        cases st
      case _ =>  -- WELCOME, Inv
        by_cases hc : data = "start_intro"
        · simp only [step, stepE, if_pos hc, handle_start_button]
          rw [ensure_user_data_of_isSome h]
          exact ⟨h, h0, hle, fun hst => by rcases hst with hst | hst <;> cases hst⟩
        · simp only [step, stepE, if_neg hc]
          exact ⟨h, h0, hle, hDR⟩
      case _ =>  -- SKILL_LEVEL, Inv
        by_cases hc : strStarts "skill_level_" data = true
        · simp only [step, stepE, hc, reduceIte, handle_skill_selection]
          by_cases hm : data ∈ (slOpts.take 2).map (·.1) <;>
            simp only [hm, reduceIte] <;>
            exact ⟨h, h0, hle, fun hst => by rcases hst with hst | hst <;> cases hst⟩
        · simp only [step, stepE, hc, reduceIte]
          exact ⟨h, h0, hle, hDR⟩
      case _ =>  -- VIDEO, Inv
        by_cases hc : data = "video_ready" ∨ data = "start_diagnosis"
        · simp only [step, stepE, if_pos hc]
          have hd := start_diagnosis_flow_char qs chat_id fresh ud h
          refine ⟨hd.1, ?_, ?_, ?_⟩
          · rw [hd.2.2.2.1]; exact h0
          · rw [hd.2.2.2.1]; exact hle
          · intro hst
            rcases hd.2.2.2.2 with hrep | ⟨_, _, hb⟩
            · rcases hst with hst | hst <;> rw [hrep] at hst <;> cases hst
            · exact hb
        · simp only [step, stepE, if_neg hc]
          exact ⟨h, h0, hle, hDR⟩
      case _ =>  -- DIAGNOSIS, Inv
        by_cases hc : strStarts "q|" data = true
        · simp only [step, stepE, hc, reduceIte]
          have hq := handle_question_callback_char qs chat_id msg_id fresh data
            .DIAGNOSIS ud h h0 (hDR (Or.inl rfl)) (Or.inl rfl)
          exact ⟨hq.1, hq.2.2.2.2.2.1, hq.2.2.2.2.2.2.1, fun hst => hq.2.2.2.2.2.2.2 hst⟩
        · simp only [step, stepE, hc, reduceIte]
          exact ⟨h, h0, hle, hDR⟩
      case _ =>  -- READINESS, Inv
        by_cases hc : strStarts "q|" data = true
        · simp only [step, stepE, hc, reduceIte]
          have hq := handle_question_callback_char qs chat_id msg_id fresh data
            .READINESS ud h h0 (hDR (Or.inr rfl)) (Or.inr rfl)
          exact ⟨hq.1, hq.2.2.2.2.2.1, hq.2.2.2.2.2.2.1, fun hst => hq.2.2.2.2.2.2.2 hst⟩
        · simp only [step, stepE, hc, reduceIte]
          exact ⟨h, h0, hle, hDR⟩
      case _ =>  -- REPORT, Inv
        by_cases hc : data = "generate_report"
        · simp only [step, stepE, if_pos hc]
          have hr := handle_report_request_char qs slOpts chat_id oc .REPORT ud h
          refine ⟨hr.1, ?_, ?_, ?_⟩
          · rw [hr.2.1]; exact h0
          · rw [hr.2.1]; exact hle
          · intro hst
            rcases hr.2.2.2.2 with hs | hs <;>
              rcases hst with hst | hst <;> rw [hs] at hst <;> cases hst
        · simp only [step, stepE, if_neg hc]
          exact ⟨h, h0, hle, hDR⟩
      case _ =>  -- CHAT, Inv
        simp only [step, stepE]
        exact ⟨h, h0, hle, hDR⟩
      case _ =>  -- WELCOME, monotone
        by_cases hc : data = "start_intro"
        · simp only [step, stepE, if_pos hc, handle_start_button]
          rw [ensure_user_data_of_isSome h]
          exact ⟨le_refl _, le_of_lt (lt_add_one _), fun hs => ⟨hs, by simp⟩⟩
        · simp only [step, stepE, if_neg hc]
          exact ⟨le_refl _, le_of_lt (lt_add_one _), fun hs => ⟨hs, by simp⟩⟩
      case _ =>  -- SKILL_LEVEL, monotone
        by_cases hc : strStarts "skill_level_" data = true
        · simp only [step, stepE, hc, reduceIte, handle_skill_selection]
          by_cases hm : data ∈ (slOpts.take 2).map (·.1) <;>
            simp only [hm, reduceIte] <;>
            exact ⟨le_refl _, le_of_lt (lt_add_one _), fun hs => ⟨hs, by simp⟩⟩
        · simp only [step, stepE, hc, reduceIte]
          exact ⟨le_refl _, le_of_lt (lt_add_one _), fun hs => ⟨hs, by simp⟩⟩
      case _ =>  -- VIDEO, monotone
        by_cases hc : data = "video_ready" ∨ data = "start_diagnosis"
        · simp only [step, stepE, if_pos hc]
          have hd := start_diagnosis_flow_char qs chat_id fresh ud h
          refine ⟨?_, ?_, ?_⟩
          · rw [hd.2.2.2.1]
          · rw [hd.2.2.2.1]; omega
          · intro hs
            exact ⟨hd.2.1.trans hs, hd.2.2.1⟩
        · simp only [step, stepE, if_neg hc]
          exact ⟨le_refl _, le_of_lt (lt_add_one _), fun hs => ⟨hs, by simp⟩⟩
      case _ =>  -- DIAGNOSIS, monotone
        by_cases hc : strStarts "q|" data = true
        · simp only [step, stepE, hc, reduceIte]
          have hq := handle_question_callback_char qs chat_id msg_id fresh data
            .DIAGNOSIS ud h h0 (hDR (Or.inl rfl)) (Or.inl rfl)
          exact ⟨hq.2.2.2.1, hq.2.2.2.2.1, fun hs => ⟨hq.2.1.trans hs, hq.2.2.1⟩⟩
        · simp only [step, stepE, hc, reduceIte]
          exact ⟨le_refl _, le_of_lt (lt_add_one _), fun hs => ⟨hs, by simp⟩⟩
      case _ =>  -- READINESS, monotone
        by_cases hc : strStarts "q|" data = true
        · simp only [step, stepE, hc, reduceIte]
          have hq := handle_question_callback_char qs chat_id msg_id fresh data
            .READINESS ud h h0 (hDR (Or.inr rfl)) (Or.inr rfl)
          exact ⟨hq.2.2.2.1, hq.2.2.2.2.1, fun hs => ⟨hq.2.1.trans hs, hq.2.2.1⟩⟩
        · simp only [step, stepE, hc, reduceIte]
          exact ⟨le_refl _, le_of_lt (lt_add_one _), fun hs => ⟨hs, by simp⟩⟩
      case _ =>  -- REPORT, monotone
        by_cases hc : data = "generate_report"
        · simp only [step, stepE, if_pos hc]
          have hr := handle_report_request_char qs slOpts chat_id oc .REPORT ud h
          refine ⟨?_, ?_, ?_⟩
          · rw [hr.2.1]
          · rw [hr.2.1]; omega
          · exact fun hs => hr.2.2.2.1 hs
        · simp only [step, stepE, if_neg hc]
          exact ⟨le_refl _, le_of_lt (lt_add_one _), fun hs => ⟨hs, by simp⟩⟩
      case _ =>  -- CHAT, monotone
        simp only [step, stepE]
        exact ⟨le_refl _, le_of_lt (lt_add_one _), fun hs => ⟨hs, by simp⟩⟩
  | text message oc =>
      refine ⟨?_, fun _ => ?_, fun heq => Event.noConfusion heq⟩ <;>
        by_cases hcmd : strStarts "/" message = true
      case pos =>
        simp only [step, stepE, hcmd, reduceIte]
        exact ⟨h, h0, hle, hDR⟩
      case neg =>
        cases st
        case WELCOME =>
            simp only [step, stepE, hcmd, reduceIte]
            exact ⟨h, h0, hle, hDR⟩
        case SKILL_LEVEL =>
            simp only [step, stepE, hcmd, reduceIte]
            exact ⟨h, h0, hle, hDR⟩
        case VIDEO =>
            simp only [step, stepE, hcmd, reduceIte]
            exact ⟨h, h0, hle, hDR⟩
        case DIAGNOSIS =>
            simp only [step, stepE, hcmd, reduceIte]
            have ht := handle_text_response_char qs slOpts chat_id fresh oc.reply
              .DIAGNOSIS message ud h h0 (hDR (Or.inl rfl)) (Or.inl rfl)
            exact ⟨ht.1, ht.2.2.2.2.2.1, ht.2.2.2.2.2.2.1,
              fun hst => ht.2.2.2.2.2.2.2 hst⟩
        case READINESS =>
            simp only [step, stepE, hcmd, reduceIte]
            have ht := handle_text_response_char qs slOpts chat_id fresh oc.reply
              .READINESS message ud h h0 (hDR (Or.inr rfl)) (Or.inr rfl)
            exact ⟨ht.1, ht.2.2.2.2.2.1, ht.2.2.2.2.2.2.1,
              fun hst => ht.2.2.2.2.2.2.2 hst⟩
        case REPORT =>
            simp only [step, stepE, hcmd, reduceIte]
            exact ⟨h, h0, hle, hDR⟩
        case CHAT =>
            simp only [step, stepE, hcmd, reduceIte]
            have hch := handle_chat_message_char qs slOpts chat_id oc.reply message ud h
            refine ⟨hch.1, ?_, ?_, ?_⟩
            · exact le_of_le_of_eq h0 hch.2.2.2.1.symm
            · exact hch.2.2.2.1.trans_le hle
            · intro hst
              have hst2 : (handle_chat_message qs slOpts chat_id oc.reply message
                    ud).st = ConversationState.DIAGNOSIS ∨
                  (handle_chat_message qs slOpts chat_id oc.reply message ud).st =
                    ConversationState.READINESS := hst
              rcases hch.2.2.2.2 with hs | hs <;>
                rcases hst2 with hst2 | hst2 <;> rw [hs] at hst2 <;> cases hst2
      case pos =>
        simp only [step, stepE, hcmd, reduceIte]
        exact ⟨le_refl _, le_of_lt (lt_add_one _), fun hs => ⟨hs, by simp⟩⟩
      case neg =>
        cases st
        case WELCOME =>
            simp only [step, stepE, hcmd, reduceIte]
            exact ⟨le_refl _, le_of_lt (lt_add_one _), fun hs => ⟨hs, by simp⟩⟩
        case SKILL_LEVEL =>
            simp only [step, stepE, hcmd, reduceIte]
            exact ⟨le_refl _, le_of_lt (lt_add_one _), fun hs => ⟨hs, by simp⟩⟩
        case VIDEO =>
            simp only [step, stepE, hcmd, reduceIte]
            exact ⟨le_refl _, le_of_lt (lt_add_one _), fun hs => ⟨hs, by simp⟩⟩
        case DIAGNOSIS =>
            simp only [step, stepE, hcmd, reduceIte]
            have ht := handle_text_response_char qs slOpts chat_id fresh oc.reply
              .DIAGNOSIS message ud h h0 (hDR (Or.inl rfl)) (Or.inl rfl)
            exact ⟨ht.2.2.2.1, ht.2.2.2.2.1, fun hs => ⟨ht.2.1.trans hs, ht.2.2.1⟩⟩
        case READINESS =>
            simp only [step, stepE, hcmd, reduceIte]
            have ht := handle_text_response_char qs slOpts chat_id fresh oc.reply
              .READINESS message ud h h0 (hDR (Or.inr rfl)) (Or.inr rfl)
            exact ⟨ht.2.2.2.1, ht.2.2.2.2.1, fun hs => ⟨ht.2.1.trans hs, ht.2.2.1⟩⟩
        case REPORT =>
            simp only [step, stepE, hcmd, reduceIte]
            exact ⟨le_refl _, le_of_lt (lt_add_one _), fun hs => ⟨hs, by simp⟩⟩
        case CHAT =>
            simp only [step, stepE, hcmd, reduceIte]
            have hch := handle_chat_message_char qs slOpts chat_id oc.reply message ud h
            refine ⟨?_, ?_, ?_⟩
            · exact le_of_eq hch.2.2.2.1.symm
            · exact hch.2.2.2.1.trans_le (le_of_lt (lt_add_one _))
            · exact fun hs => ⟨hch.2.1.trans hs, hch.2.2.1⟩

theorem runSteps_inv (qs : List Question) (slOpts : List (String × String))
    (chat_id : Nat) (evs : List Event) (s : SysState) (hs : SysInv qs s) :
    SysInv qs (runSteps qs slOpts chat_id s evs) := by
  induction evs generalizing s with
  | nil => exact hs
  | cons e rest ih =>
      exact ih (step qs slOpts chat_id s e)
        (step_master qs slOpts chat_id s e hs).1

theorem initState_inv (qs : List Question) : SysInv qs initState := by
  refine ⟨rfl, le_refl _, Int.natCast_nonneg _, ?_⟩
  intro hst
  rcases hst with hst | hst <;> cases hst

theorem reachable_inv (qs : List Question) (slOpts : List (String × String))
    (chat_id : Nat) (s : SysState)
    (hreach : Reachable qs slOpts chat_id s) : SysInv qs s := by
  obtain ⟨evs, rfl⟩ := hreach
  exact runSteps_inv qs slOpts chat_id evs initState (initState_inv qs)

theorem current_none_iff (qs : List Question) (ud : UserData)
    (h0 : 0 ≤ ud.question_index)
    (hle : ud.question_index ≤ (qs.length : Int)) :
    (get_current_question qs ud = none ↔
      ud.question_index = (qs.length : Int)) := by
  unfold get_current_question
  by_cases hg : 0 ≤ ud.question_index ∧ ud.question_index < (qs.length : Int)
  · rw [if_pos hg]
    have hb : ud.question_index.toNat < qs.length := by omega
    simp [List.getElem?_eq_getElem hb]
    omega
  · rw [if_neg hg]
    simp only [true_iff]
    omega

/-! Claim C2: cursor monotonicity and bounds. -/

/-- C2: `advance_question` increments the cursor by exactly one and
`reset_user_session` sets it to zero; in every reachable system state the
cursor lies in `[0, len(questions)]` and equals `len(questions)` exactly
when the questionnaire is exhausted (no current question); and no event
other than the explicit `/start` reset ever decreases the cursor (each
event moves it by zero or one), while `/start` sets it to zero. -/
theorem c2_cursor_monotone_and_bounded (qs : List Question)
    (slOpts : List (String × String)) (chat_id : Nat) (s : SysState)
    (hreach : Reachable qs slOpts chat_id s) :
    (∀ ud : UserData,
      (advance_question qs ud).2.question_index = ud.question_index + 1) ∧
    (∀ ud : UserData, (reset_user_session ud).question_index = 0) ∧
    (0 ≤ s.ud.question_index ∧ s.ud.question_index ≤ (qs.length : Int)) ∧
    (s.ud.question_index = (qs.length : Int) ↔
      get_current_question qs s.ud = none) ∧
    (∀ e : Event, e ≠ .start →
      s.ud.question_index ≤ (step qs slOpts chat_id s e).ud.question_index ∧
      (step qs slOpts chat_id s e).ud.question_index ≤ s.ud.question_index + 1) ∧
    (∀ e : Event, e = .start →
      (step qs slOpts chat_id s e).ud.question_index = 0) := by
  have hinv := reachable_inv qs slOpts chat_id s hreach
  obtain ⟨h, h0, hle, hDR⟩ := hinv
  refine ⟨fun ud => rfl, fun ud => rfl, ⟨h0, hle⟩,
    (current_none_iff qs s.ud h0 hle).symm, ?_, ?_⟩
  · intro e hne
    have hm := (step_master qs slOpts chat_id s e ⟨h, h0, hle, hDR⟩).2.1 hne
    exact ⟨hm.1, hm.2.1⟩
  · intro e he
    exact (step_master qs slOpts chat_id s e ⟨h, h0, hle, hDR⟩).2.2 he

/-- C2 witness: the theorem at the concrete one-question catalog and the
initial reachable state. -/
theorem c2_cursor_monotone_and_bounded_witness :
    (∀ ud : UserData,
      (advance_question [multiOnlyQ] ud).2.question_index =
        ud.question_index + 1) ∧
    (∀ ud : UserData, (reset_user_session ud).question_index = 0) ∧
    (0 ≤ initState.ud.question_index ∧
      initState.ud.question_index ≤ (([multiOnlyQ] : List Question).length : Int)) ∧
    (initState.ud.question_index = (([multiOnlyQ] : List Question).length : Int) ↔
      get_current_question [multiOnlyQ] initState.ud = none) ∧
    (∀ e : Event, e ≠ .start →
      initState.ud.question_index ≤
        (step [multiOnlyQ] stdSl 7 initState e).ud.question_index ∧
      (step [multiOnlyQ] stdSl 7 initState e).ud.question_index ≤
        initState.ud.question_index + 1) ∧
    (∀ e : Event, e = .start →
      (step [multiOnlyQ] stdSl 7 initState e).ud.question_index = 0) :=
  c2_cursor_monotone_and_bounded [multiOnlyQ] stdSl 7 initState ⟨[], rfl⟩

/-! Claim C6: the persistence gate of the report request. -/

/-- Session of the C6 counterexample: diagnosis finished, answers not yet
persisted. -/
def c6Session : UserData := { freshSession with diagnosis_complete := true }

/-- Collaborator outcomes of the C6 counterexample: the persistence call
raises, everything else would succeed. -/
def c6FailOracle : Oracles := ⟨false, true, true, true, "ANALYSIS", "REPLY"⟩

/-- C6 counterexample: when the persistence call raises, the report
request aborts right after it - the analysis, rendering and delivery steps
are never reached, so the persistence failure does block report delivery
on that request (the flags stay unset, enabling a retry). -/
theorem c6_counterexample :
    handle_report_request [] stdSl 7 c6FailOracle .REPORT c6Session =
      ⟨.REPORT, c6Session, [.invokePersist]⟩ ∧
    Effect.sendDocument 7 ∉
      (handle_report_request [] stdSl 7 c6FailOracle .REPORT c6Session).effs ∧
    Effect.invokeAnalyze ∉
      (handle_report_request [] stdSl 7 c6FailOracle .REPORT c6Session).effs ∧
    (handle_report_request [] stdSl 7 c6FailOracle .REPORT c6Session).ud.sheets_saved
      = false ∧
    (handle_report_request [] stdSl 7 c6FailOracle .REPORT c6Session).ud.report_ready
      = false := by
  decide

/-- C6 amended: a raising persistence call leaves the session exactly as
it was (in particular `sheets_saved` stays false, so the next report
request retries persistence) but aborts the handler, so nothing is
analysed or delivered on that request; a raising analysis call leaves
`report_ready` unset; once `sheets_saved` is set the persistence
collaborator is never invoked again, neither by a report request nor by
any later non-reset event. -/
theorem c6_amended_persistence_gate (qs : List Question)
    (slOpts : List (String × String)) (chat_id : Nat) (oc : Oracles)
    (cur : ConversationState) (ud : UserData) (h : ud.answers.isSome) :
    (ud.diagnosis_complete = true → ud.sheets_saved = false →
      oc.persistOk = false →
      handle_report_request qs slOpts chat_id oc cur ud =
        ⟨cur, ud, [.invokePersist]⟩) ∧
    (oc.analyzeOk = false →
      (handle_report_request qs slOpts chat_id oc cur ud).ud.report_ready
        = ud.report_ready) ∧
    (ud.sheets_saved = true →
      (handle_report_request qs slOpts chat_id oc cur ud).ud.sheets_saved = true ∧
      Effect.invokePersist ∉
        (handle_report_request qs slOpts chat_id oc cur ud).effs) ∧
    (∀ (s : SysState) (e : Event), SysInv qs s → e ≠ .start →
      s.ud.sheets_saved = true →
      (step qs slOpts chat_id s e).ud.sheets_saved = true ∧
      Effect.invokePersist ∉ (stepE qs slOpts chat_id s e).2) := by
  refine ⟨?_, ?_, ?_, ?_⟩
  · intro hdc hss hpo
    simp only [handle_report_request]
    rw [ensure_user_data_of_isSome h, hdc, hss, hpo]
    rfl
  · intro hana
    have hap : ∀ X : UserData,
        report_after_persist qs slOpts chat_id oc cur X =
          ⟨cur, X, [.invokeAnalyze]⟩ := by
      intro X
      simp only [report_after_persist]
      rw [hana]
      rfl
    by_cases hdc : ud.diagnosis_complete = true
    · by_cases hss : ud.sheets_saved = true
      · have hstep : handle_report_request qs slOpts chat_id oc cur ud =
            report_after_persist qs slOpts chat_id oc cur ud := by
          simp only [handle_report_request]
          rw [ensure_user_data_of_isSome h, hdc, hss]
          rfl
        rw [hstep, hap ud]
      · have hss2 : ud.sheets_saved = false := bool_not_true_eq_false _ hss
        by_cases hpo : oc.persistOk = true
        · have hstep : handle_report_request qs slOpts chat_id oc cur ud =
              ⟨(report_after_persist qs slOpts chat_id oc cur
                  { ud with sheets_saved := true }).st,
                (report_after_persist qs slOpts chat_id oc cur
                  { ud with sheets_saved := true }).ud,
                .invokePersist :: (report_after_persist qs slOpts chat_id oc cur
                  { ud with sheets_saved := true }).effs⟩ := by
            simp only [handle_report_request]
            rw [ensure_user_data_of_isSome h, hdc, hss2, hpo]
            rfl
          rw [hstep, hap { ud with sheets_saved := true }]
        · have hpo2 : oc.persistOk = false := bool_not_true_eq_false _ hpo
          have hstep : handle_report_request qs slOpts chat_id oc cur ud =
              ⟨cur, ud, [.invokePersist]⟩ := by
            simp only [handle_report_request]
            rw [ensure_user_data_of_isSome h, hdc, hss2, hpo2]
            rfl
          rw [hstep]
    · have hdc2 : ud.diagnosis_complete = false := bool_not_true_eq_false _ hdc
      have hstep : handle_report_request qs slOpts chat_id oc cur ud =
          ⟨.REPORT, ud, [.sendMessage chat_id PRE_CHAT_REMINDER]⟩ := by
        simp only [handle_report_request]
        rw [ensure_user_data_of_isSome h, hdc2]
        rfl
      rw [hstep]
  · exact fun hs => (handle_report_request_char qs slOpts chat_id oc cur ud h).2.2.2.1 hs
  · intro s e hinv hne hs
    exact (step_master qs slOpts chat_id s e hinv).2.1 hne |>.2.2 hs

/-- C6 amended witness: the raising persistence call at the concrete
counterexample session, with every hypothesis discharged by evaluation. -/
theorem c6_amended_persistence_gate_witness :
    handle_report_request [] stdSl 7 c6FailOracle .REPORT c6Session =
      ⟨.REPORT, c6Session, [.invokePersist]⟩ :=
  (c6_amended_persistence_gate [] stdSl 7 c6FailOracle .REPORT c6Session
    (by decide)).1 (by decide) (by decide) (by decide)

/-! Claim C4: the two awaiting flags. -/

theorem mem_of_getElemQ {l : List Question} {i : Nat} {a : Question}
    (h : l[i]? = some a) : a ∈ l := by
  obtain ⟨hlt, rfl⟩ := List.getElem?_eq_some_iff.mp h
  exact List.getElem_mem hlt

theorem send_next_question_flags (qs : List Question) (chat_id fresh : Nat)
    (b : Bool) (ud : UserData) :
    ((send_next_question qs chat_id fresh b ud).ud.awaiting_other =
        (ensure_user_data ud).awaiting_other ∧
      (send_next_question qs chat_id fresh b ud).ud.awaiting_text =
        (ensure_user_data ud).awaiting_text) ∨
    ((send_next_question qs chat_id fresh b ud).ud.awaiting_other = none ∧
      ((send_next_question qs chat_id fresh b ud).ud.awaiting_text = none ∨
        ∃ q2 : Question, q2 ∈ qs ∧
          (send_next_question qs chat_id fresh b ud).ud.awaiting_text = some q2.id ∧
          q2.options = [] ∧ q2.expects_text = true)) := by
  unfold send_next_question advance_question get_current_question
    handle_questionnaire_complete
  cases b with
  | true =>
      simp only [if_true]
      cases hx : (if 0 ≤ (ensure_user_data ud).question_index ∧
          (ensure_user_data ud).question_index < (qs.length : Int)
        then qs[(ensure_user_data ud).question_index.toNat]? else none) with
      | none => simp [hx]
      | some q2 =>
          simp only [hx]
          right
          have hmem : q2 ∈ qs := by
            by_cases hg : 0 ≤ (ensure_user_data ud).question_index ∧
                (ensure_user_data ud).question_index < (qs.length : Int)
            · rw [if_pos hg] at hx
              exact mem_of_getElemQ hx
            · rw [if_neg hg] at hx
              cases hx
          unfold send_question set_current_question_message
          rw [ensure_user_data_of_isSome (ensure_answers_isSome ud)]
          by_cases h1 : q2.options ≠ []
          · exact ⟨by simp [h1], Or.inl (by simp [h1])⟩
          · cases h2 : q2.expects_text
            · exact ⟨by simp [h1, h2], Or.inl (by simp [h1, h2])⟩
            · exact ⟨by simp [h1, h2],
                Or.inr ⟨q2, hmem, by simp [h1, h2], of_not_not h1, h2⟩⟩
  | false =>
      simp only [Bool.false_eq_true, if_false]
      cases hx : (if 0 ≤ (ensure_user_data ud).question_index + 1 ∧
          (ensure_user_data ud).question_index + 1 < (qs.length : Int)
        then qs[((ensure_user_data ud).question_index + 1).toNat]? else none) with
      | none => simp [hx]
      | some q2 =>
          simp only [hx]
          right
          have hmem : q2 ∈ qs := by
            by_cases hg : 0 ≤ (ensure_user_data ud).question_index + 1 ∧
                (ensure_user_data ud).question_index + 1 < (qs.length : Int)
            · rw [if_pos hg] at hx
              exact mem_of_getElemQ hx
            · rw [if_neg hg] at hx
              cases hx
          have hsome : ({ ensure_user_data ud with
              question_index := (ensure_user_data ud).question_index + 1 } :
                UserData).answers.isSome := ensure_answers_isSome ud
          unfold send_question set_current_question_message
          rw [ensure_user_data_of_isSome hsome]
          by_cases h1 : q2.options ≠ []
          · exact ⟨by simp [h1], Or.inl (by simp [h1])⟩
          · cases h2 : q2.expects_text
            · exact ⟨by simp [h1, h2], Or.inl (by simp [h1, h2])⟩
            · exact ⟨by simp [h1, h2],
                Or.inr ⟨q2, hmem, by simp [h1, h2], of_not_not h1, h2⟩⟩

/-- Multi-select question of the C4 counterexample, with a normal option
and a requiresFreeText option. -/
def c4Q1 : Question :=
  ⟨"m1", "M1", "business", true, false, [⟨"a", "A", false⟩, ⟨"o", "Other", true⟩]⟩

/-- Text-only question of the C4 counterexample. -/
def c4Q2 : Question := ⟨"t2", "T2", "business", false, true, []⟩

/-- Events of the C4 counterexample: answer the multi-select question and
press done (which sets `awaiting_text` for the text question), then press
the stale requiresFreeText button of the first question's card. -/
def c4Events : List Event :=
  [.callback "start_intro" 100 okOracle,
   .callback "skill_level_beginner" 101 okOracle,
   .callback "video_ready" 102 okOracle,
   .callback "q|m1|a" 103 okOracle,
   .callback "q|m1|done" 103 okOracle,
   .callback "q|m1|o" 103 okOracle]

/-- The C4 counterexample events extended by the free-text follow-up. -/
def c4Events2 : List Event := c4Events ++ [.text "hello" okOracle]

/-- C4 counterexample: after a stale requiresFreeText callback arrives
while a text-only question is awaited, the reachable session has *both*
awaiting flags set; the plain-text message that then records the custom
answer clears only `awaiting_other`, so recording an answer does not
always clear both flags. -/
theorem c4_counterexample :
    (run [c4Q1, c4Q2] stdSl 7 c4Events).ud.awaiting_text = some "t2" ∧
    (run [c4Q1, c4Q2] stdSl 7 c4Events).ud.awaiting_other.isSome = true ∧
    (run [c4Q1, c4Q2] stdSl 7 c4Events2).ud.awaiting_text = some "t2" ∧
    (run [c4Q1, c4Q2] stdSl 7 c4Events2).ud.awaiting_other = none ∧
    get_answer (run [c4Q1, c4Q2] stdSl 7 c4Events2).ud "m1" =
      some (.choice ["a"] [("Other", "hello")]) := by
  decide

/-- C4 amended: sending a question always clears both awaiting flags and
sets at most one (`awaiting_text`, only for a text-only question);
recording a scalar answer through the awaited text path clears both flags
(`awaiting_text` is re-set only when the *next* question sent is itself
text-only); but recording a custom free-text answer clears only
`awaiting_other` and leaves `awaiting_text` as it was, and a stale
requiresFreeText callback can set `awaiting_other` while `awaiting_text`
is set, so reachable states may carry both flags at once. -/
theorem c4_amended_awaiting_flags (qs : List Question)
    (slOpts : List (String × String)) (chat_id msg_id fresh : Nat)
    (reply : String) (cur : ConversationState) (raw : String) :
    (∀ (q : Question) (ud : UserData),
      (send_question chat_id msg_id q ud).ud.awaiting_other = none ∧
      ((send_question chat_id msg_id q ud).ud.awaiting_text = none ∨
        ((send_question chat_id msg_id q ud).ud.awaiting_text = some q.id ∧
          q.options = [] ∧ q.expects_text = true))) ∧
    (∀ (ud : UserData) (qid : String) (q : Question),
      ud.answers.isSome → ud.awaiting_other = none →
      ud.awaiting_text = some qid → qid ≠ "" →
      get_question_by_id qs qid = some q →
      (handle_text_response qs slOpts chat_id fresh reply cur raw ud).ud.awaiting_other
        = none ∧
      ((handle_text_response qs slOpts chat_id fresh reply cur raw ud).ud.awaiting_text
          = none ∨
        ∃ q2 : Question, q2 ∈ qs ∧
          (handle_text_response qs slOpts chat_id fresh reply cur raw
            ud).ud.awaiting_text = some q2.id ∧
          q2.options = [] ∧ q2.expects_text = true)) ∧
    (∀ (ud : UserData) (ctx : OtherCtx) (q : Question) (ud1 : UserData),
      ud.answers.isSome → ud.awaiting_other = some ctx →
      get_question_by_id qs ctx.question_id = some q → q.multi_select = true →
      append_custom_answer ud ctx.question_id ctx.option_text (pyStrip raw)
        = some ud1 →
      (handle_text_response qs slOpts chat_id fresh reply cur raw ud).ud.awaiting_other
        = none ∧
      (handle_text_response qs slOpts chat_id fresh reply cur raw ud).ud.awaiting_text
        = ud.awaiting_text) := by
  refine ⟨?_, ?_, ?_⟩
  · intro q ud
    unfold send_question set_current_question_message
    by_cases h1 : q.options ≠ []
    · exact ⟨by simp [h1], Or.inl (by simp [h1])⟩
    · cases h2 : q.expects_text
      · exact ⟨by simp [h1, h2], Or.inl (by simp [h1, h2])⟩
      · exact ⟨by simp [h1, h2],
          Or.inr ⟨by simp [h1, h2], of_not_not h1, by simp [h2]⟩⟩
  · intro ud qid q h hao hat hne hq
    simp only [handle_text_response]
    rw [ensure_user_data_of_isSome h, hao, hat]
    dsimp only
    rw [if_pos hne]
    simp only [hq]
    have h1 : ({ record_single_answer ud q.id (.scalar (pyStrip raw)) with
        awaiting_text := none } : UserData).answers.isSome := by
      simp [record_single_answer]
    have hfl := send_next_question_flags qs chat_id fresh false
      { record_single_answer ud q.id (.scalar (pyStrip raw)) with
        awaiting_text := none }
    rw [ensure_user_data_of_isSome h1] at hfl
    rcases hfl with ⟨ho, ht⟩ | ⟨ho, ht⟩
    · constructor
      · rw [ho]
        exact hao
      · left
        rw [ht]
    · exact ⟨ho, ht⟩
  · intro ud ctx q ud1 h hao hq hms happ
    have hf := append_custom_answer_fields ud ctx.question_id ctx.option_text
      (pyStrip raw) ud1 happ
    have hr := refresh_question_message_fields q { ud1 with awaiting_other := none }
    simp only [handle_text_response]
    rw [ensure_user_data_of_isSome h, hao]
    simp only [hq, hms, reduceIte, happ]
    constructor
    · rw [hr.2.2.2.2.1]
    · rw [hr.2.2.2.1]
      exact hf.2.2.2.1

/-- Session of the C4 witness: both flags set, as the counterexample trace
reaches. -/
def c4BothSession : UserData :=
  { freshSession with
    answers := some [("m1", .choice ["a"] [])]
    question_index := 1
    awaiting_text := some "t2"
    awaiting_other := some ⟨"m1", "Other", "business", true⟩
    current_question_message := some (7, 104) }

/-- The C4 witness session after the custom entry is appended. -/
def c4AppendedSession : UserData :=
  { c4BothSession with answers := some [("m1", .choice ["a"] [("Other", "hello")])] }

/-- C4 amended witness: the custom-answer conjunct of the theorem at the
concrete both-flags session, hypotheses discharged by evaluation. -/
theorem c4_amended_awaiting_flags_witness :
    (handle_text_response [c4Q1, c4Q2] stdSl 7 4 "R" .DIAGNOSIS "hello"
        c4BothSession).ud.awaiting_other = none ∧
    (handle_text_response [c4Q1, c4Q2] stdSl 7 4 "R" .DIAGNOSIS "hello"
        c4BothSession).ud.awaiting_text = c4BothSession.awaiting_text :=
  (c4_amended_awaiting_flags [c4Q1, c4Q2] stdSl 7 103 4 "R" .DIAGNOSIS "hello").2.2
    c4BothSession ⟨"m1", "Other", "business", true⟩ c4Q1 c4AppendedSession
    (by decide) (by decide) (by decide) (by decide) (by decide)
